import Mathlib

/-!
Verification of the dual-core traffic-statistics, configuration-translation and
process-supervision subsystem of the 3x-ui panel.

The definitions below are shallow embeddings of the Go sources:
  - xray API client (processTraffic, processClientTraffic, GetTraffic dispatch);
  - sing-box API client (parseTrafficKey, GetTraffic aggregation);
  - the xray to sing-box configuration translator and its inverse;
  - the template-validation step of the setting service;
  - the sing-box process supervisor and service-level stop;
  - the core-switch orchestrator.
Side effects (gRPC / HTTP transport, database rows, OS processes) are modelled
by explicit inputs and outputs: a stats response becomes a list of key/value
pairs, the settings store becomes a record of strings, and each fallible
collaborator becomes a boolean outcome supplied by the environment.
-/

/-! ## Traffic statistic records (xray/traffic.go and singbox/traffic.go) -/

/-- Per-tag traffic record, shared shape between both cores. -/
structure Traffic where
  isInbound : Bool
  isOutbound : Bool
  tag : String
  up : Int
  down : Int
deriving Repr, DecidableEq

/-- Per-client (email-keyed) traffic record. -/
structure ClientTraffic where
  email : String
  up : Int
  down : Int
deriving Repr, DecidableEq

/-! ## Association-list model of Go maps.
Inserting a key keeps its position when it is already present and appends
otherwise, mirroring in-place mutation of a Go map entry; the final
mapToSlice enumeration is modelled as insertion order. -/

/-- Lookup in an association list, modelling a Go map read. -/
def alistGet {α : Type} (m : List (String × α)) (k : String) : Option α :=
  (m.find? (fun p => p.1 == k)).map (fun p => p.2)

/-- Update or append in an association list, modelling a Go map write. -/
def alistSet {α : Type} (m : List (String × α)) (k : String) (v : α) :
    List (String × α) :=
  match m with
  | [] => [(k, v)]
  | (k', v') :: rest =>
    if k' == k then (k, v) :: rest else (k', v') :: alistSet rest k v

/-! ## Xray stat-key matching.
GetTraffic in the xray API client matches each stat name against
two regular expressions (xray/api.go):
  (inbound|outbound)>>>([^>]+)>>>traffic>>>(downlink|uplink)
  user>>>([^>]+)>>>traffic>>>(downlink|uplink)
searching for the leftmost occurrence.  Both patterns are deterministic:
the character class excludes the separator character, so greedy matching
never needs to backtrack; the functions below implement exactly this
leftmost-match semantics over the character list of the key. -/

/-- Match a literal character sequence at the front, returning the rest. -/
def dropLit : List Char → List Char → Option (List Char)
  | [], cs => some cs
  | _ :: _, [] => none
  | l :: ls, c :: cs => if l = c then dropLit ls cs else none

/-- Split off the maximal run of characters allowed by the class excluding
the separator character, as matched greedily by the capture group. -/
def spanTag (cs : List Char) : List Char × List Char :=
  (cs.takeWhile (fun c => c ≠ '>'), cs.dropWhile (fun c => c ≠ '>'))

/-- Match the final direction alternation of both stat-key patterns. -/
def matchDir (cs : List Char) : Option String :=
  if (dropLit "downlink".data cs).isSome then some "downlink"
  else if (dropLit "uplink".data cs).isSome then some "uplink"
  else none

/-- Attempt the tag-traffic pattern at the current position. -/
def matchTagTrafficAt (cs : List Char) : Option (String × String × String) :=
  let tryKw : String → Option (String × String × String) := fun kw =>
    match dropLit kw.data cs with
    | none => none
    | some r1 =>
      match dropLit ">>>".data r1 with
      | none => none
      | some r2 =>
        let tagAndRest := spanTag r2
        if tagAndRest.1.isEmpty then none
        else
          match dropLit ">>>traffic>>>".data tagAndRest.2 with
          | none => none
          | some r4 =>
            match matchDir r4 with
            | none => none
            | some dir => some (kw, String.mk tagAndRest.1, dir)
  match tryKw "inbound" with
  | some m => some m
  | none => tryKw "outbound"

/-- Leftmost occurrence of the tag-traffic pattern in the key. -/
def findTagTraffic : List Char → Option (String × String × String)
  | [] => none
  | c :: cs =>
    match matchTagTrafficAt (c :: cs) with
    | some m => some m
    | none => findTagTraffic cs

/-- Attempt the user-traffic pattern at the current position. -/
def matchUserTrafficAt (cs : List Char) : Option (String × String) :=
  match dropLit "user>>>".data cs with
  | none => none
  | some r1 =>
    let emailAndRest := spanTag r1
    if emailAndRest.1.isEmpty then none
    else
      match dropLit ">>>traffic>>>".data emailAndRest.2 with
      | none => none
      | some r3 =>
        match matchDir r3 with
        | none => none
        | some dir => some (String.mk emailAndRest.1, dir)

/-- Leftmost occurrence of the user-traffic pattern in the key. -/
def findUserTraffic : List Char → Option (String × String)
  | [] => none
  | c :: cs =>
    match matchUserTrafficAt (c :: cs) with
    | some m => some m
    | none => findUserTraffic cs

/-! ## Xray traffic aggregation (processTraffic / processClientTraffic). -/

/-- Aggregates one tag-keyed stat into the traffic map; the reserved
control-channel tag is skipped; a downlink key writes the Down field and an
uplink key writes the Up field of the record. -/
def processTraffic (kind tag dir : String) (value : Int)
    (trafficMap : List (String × Traffic)) : List (String × Traffic) :=
  let isInbound := kind == "inbound"
  let isDown := dir == "downlink"
  if tag == "api" then trafficMap
  else
    let t :=
      match alistGet trafficMap tag with
      | some t => t
      | none =>
        { isInbound := isInbound, isOutbound := !isInbound,
          tag := tag, up := 0, down := 0 }
    let t' := if isDown then { t with down := value } else { t with up := value }
    alistSet trafficMap tag t'

/-- Aggregates one email-keyed stat into the client-traffic map; a downlink
key writes Down and an uplink key writes Up. -/
def processClientTraffic (email dir : String) (value : Int)
    (clientTrafficMap : List (String × ClientTraffic)) :
    List (String × ClientTraffic) :=
  let isDown := dir == "downlink"
  let t :=
    match alistGet clientTrafficMap email with
    | some t => t
    | none => { email := email, up := 0, down := 0 }
  let t' := if isDown then { t with down := value } else { t with up := value }
  alistSet clientTrafficMap email t'

/-- Dispatch of one stat entry in the GetTraffic loop of the xray client:
the tag pattern is tried first, the user pattern only if it fails. -/
def xrayStatStep
    (maps : List (String × Traffic) × List (String × ClientTraffic))
    (stat : String × Int) :
    List (String × Traffic) × List (String × ClientTraffic) :=
  match findTagTraffic stat.1.data with
  | some m => (processTraffic m.1 m.2.1 m.2.2 stat.2 maps.1, maps.2)
  | none =>
    match findUserTraffic stat.1.data with
    | some m => (maps.1, processClientTraffic m.1 m.2 stat.2 maps.2)
    | none => maps

/-- Pure core of the xray GetTraffic call: fold the stat response into the
two maps and enumerate them. -/
def xrayGetTraffic (stats : List (String × Int)) :
    List Traffic × List ClientTraffic :=
  let maps := stats.foldl xrayStatStep ([], [])
  (maps.1.map (fun p => p.2), maps.2.map (fun p => p.2))

/-! ## Sing-box stat-key parsing (singbox/api.go parseTrafficKey).
The Go code splits the key on every occurrence of the three-character
separator; splitSep3 reproduces the semantics of that library split. -/

/-- Prepend a character to the first segment of a split result. -/
def consOnHead (c : Char) : List (List Char) → List (List Char)
  | [] => [[c]]
  | seg :: segs => (c :: seg) :: segs

/-- Split a character list around each occurrence of the separator ">>>",
scanning left to right. -/
def splitSep3 : List Char → List (List Char)
  | [] => [[]]
  | '>' :: '>' :: '>' :: rest => [] :: splitSep3 rest
  | c :: rest => consOnHead c (splitSep3 rest)

/-- Parse a sing-box stat key into its component map; keys that do not have
exactly four separator-delimited parts are rejected. -/
def parseTrafficKey (key : String) : Option (List (String × String)) :=
  match (splitSep3 key.data).map String.mk with
  | [p0, p1, p2, p3] =>
    let r : List (String × String) := [("type", p0)]
    let r := if p0 == "inbound" || p0 == "outbound" then alistSet r "tag" p1 else r
    let r := if p0 == "user" then alistSet r "email" p1 else r
    let r := if p2 == "traffic" then alistSet r "direction" p3 else r
    some r
  | _ => none

/-- Read of the parsed-component map with the Go zero value for a missing
key. -/
def mgetD (m : List (String × String)) (k : String) : String :=
  (alistGet m k).getD ""

/-- Aggregation of one parsed stat in the sing-box GetTraffic loop.  There
is no exclusion of any reserved tag in this client. -/
def singBoxStatStep
    (maps : List (String × Traffic) × List (String × ClientTraffic))
    (stat : String × Int) :
    List (String × Traffic) × List (String × ClientTraffic) :=
  match parseTrafficKey stat.1 with
  | none => maps
  | some parts =>
    let typ := mgetD parts "type"
    if typ == "inbound" || typ == "outbound" then
      let tag := mgetD parts "tag"
      let isInbound := typ == "inbound"
      let isDown := mgetD parts "direction" == "downlink"
      let t :=
        match alistGet maps.1 tag with
        | some t => t
        | none =>
          { isInbound := isInbound, isOutbound := !isInbound,
            tag := tag, up := 0, down := 0 }
      let t' :=
        if isDown then { t with down := stat.2 } else { t with up := stat.2 }
      (alistSet maps.1 tag t', maps.2)
    else if typ == "user" then
      let email := mgetD parts "email"
      let isDown := mgetD parts "direction" == "downlink"
      let t :=
        match alistGet maps.2 email with
        | some t => t
        | none => { email := email, up := 0, down := 0 }
      let t' :=
        if isDown then { t with down := stat.2 } else { t with up := stat.2 }
      (maps.1, alistSet maps.2 email t')
    else maps

/-- Pure core of the sing-box GetTraffic call over the decoded stats
object. -/
def singBoxGetTraffic (stats : List (String × Int)) :
    List Traffic × List ClientTraffic :=
  let maps := stats.foldl singBoxStatStep ([], [])
  (maps.1.map (fun p => p.2), maps.2.map (fun p => p.2))

/-! ## Lemmas about the splitter and the association-list operations. -/

theorem splitSep3_sep (rest : List Char) :
    splitSep3 ('>' :: '>' :: '>' :: rest) = [] :: splitSep3 rest := rfl

theorem splitSep3_cons_ne (c : Char) (rest : List Char) (hc : c ≠ '>') :
    splitSep3 (c :: rest) = consOnHead c (splitSep3 rest) := by
  conv_lhs => rw [splitSep3.eq_def]
  split
  · simp_all
  · rename_i h
    injection h with h1 _
    exact absurd h1 hc
  · rename_i l1 c2 rest2 hno heq
    injection heq with h1 h2
    subst h1
    subst h2
    rfl

theorem splitSep3_seg_append (l rest : List Char) (hl : ∀ c ∈ l, c ≠ '>') :
    splitSep3 (l ++ '>' :: '>' :: '>' :: rest) = l :: splitSep3 rest := by
  induction l with
  | nil => simp [splitSep3_sep]
  | cons c l ih =>
    have hc : c ≠ '>' := hl c (by simp)
    have hl' : ∀ x ∈ l, x ≠ '>' := fun x hx => hl x (by simp [hx])
    rw [List.cons_append, splitSep3_cons_ne c _ hc, ih hl']
    rfl

theorem splitSep3_no_sep (l : List Char) (hl : ∀ c ∈ l, c ≠ '>') :
    splitSep3 l = [l] := by
  induction l with
  | nil => rfl
  | cons c l ih =>
    have hc : c ≠ '>' := hl c (by simp)
    have hl' : ∀ x ∈ l, x ≠ '>' := fun x hx => hl x (by simp [hx])
    rw [splitSep3_cons_ne c _ hc, ih hl']
    rfl

theorem splitSep3_key (typ tag dir : String)
    (htyp : ∀ c ∈ typ.data, c ≠ '>') (htag : ∀ c ∈ tag.data, c ≠ '>')
    (hdir : ∀ c ∈ dir.data, c ≠ '>') :
    splitSep3 (typ ++ ">>>" ++ tag ++ ">>>traffic>>>" ++ dir).data =
      [typ.data, tag.data, "traffic".data, dir.data] := by
  have e1 : (">>>" : String).data = ['>', '>', '>'] := rfl
  have e2 : (">>>traffic>>>" : String).data =
      '>' :: '>' :: '>' :: (("traffic" : String).data ++ ['>', '>', '>']) := rfl
  have h1 : (typ ++ ">>>" ++ tag ++ ">>>traffic>>>" ++ dir).data =
      typ.data ++ '>' :: '>' :: '>' ::
        (tag.data ++ '>' :: '>' :: '>' ::
          (("traffic" : String).data ++ '>' :: '>' :: '>' :: dir.data)) := by
    rw [String.data_append, String.data_append, String.data_append,
      String.data_append, e1, e2]
    simp
  rw [h1, splitSep3_seg_append _ _ htyp, splitSep3_seg_append _ _ htag,
    splitSep3_seg_append _ _ (by decide), splitSep3_no_sep _ hdir]

theorem alistSet_mem {α : Type} {m : List (String × α)} {k : String} {v : α}
    {p : String × α} (hp : p ∈ alistSet m k v) : p = (k, v) ∨ p ∈ m := by
  induction m with
  | nil => simpa [alistSet] using hp
  | cons q m ih =>
    obtain ⟨k', v'⟩ := q
    by_cases h : (k' == k) = true
    · simp only [alistSet, h, if_true] at hp
      rcases List.mem_cons.mp hp with h1 | h1
      · exact Or.inl h1
      · exact Or.inr (List.mem_cons_of_mem _ h1)
    · simp only [alistSet, h, if_false] at hp
      rcases List.mem_cons.mp hp with h1 | h1
      · exact Or.inr (h1 ▸ List.mem_cons_self _ _)
      · rcases ih h1 with h2 | h2
        · exact Or.inl h2
        · exact Or.inr (List.mem_cons_of_mem _ h2)

theorem alistGet_mem {α : Type} {m : List (String × α)} {k : String} {v : α}
    (h : alistGet m k = some v) : (k, v) ∈ m := by
  induction m with
  | nil => simp [alistGet] at h
  | cons q m ih =>
    obtain ⟨k', v'⟩ := q
    by_cases hq : (k' == k) = true
    · simp only [alistGet, List.find?, hq, Option.map_some'] at h
      obtain rfl : v' = v := by injection h
      obtain rfl : k' = k := by simpa using hq
      exact List.mem_cons_self _ _
    · simp only [alistGet, List.find?, hq] at h
      exact List.mem_cons_of_mem _ (ih h)

/-! ## Behaviour of a single stat entry through each GetTraffic pipeline. -/

theorem xrayGetTraffic_single_tag (key kind tag dir : String) (v : Int)
    (h : findTagTraffic key.data = some (kind, tag, dir)) (hapi : tag ≠ "api") :
    xrayGetTraffic [(key, v)] =
      ([if dir = "downlink" then
          { isInbound := kind == "inbound", isOutbound := !(kind == "inbound"),
            tag := tag, up := 0, down := v }
        else
          { isInbound := kind == "inbound", isOutbound := !(kind == "inbound"),
            tag := tag, up := v, down := 0 }], []) := by
  have hne : (tag == "api") = false := by simpa using hapi
  by_cases hd : dir = "downlink" <;>
    simp [xrayGetTraffic, xrayStatStep, h, processTraffic, hne, alistGet,
      alistSet, hd]

theorem xrayGetTraffic_single_user (key email dir : String) (v : Int)
    (h0 : findTagTraffic key.data = none)
    (h : findUserTraffic key.data = some (email, dir)) :
    xrayGetTraffic [(key, v)] =
      ([], [if dir = "downlink" then { email := email, up := 0, down := v }
            else { email := email, up := v, down := 0 }]) := by
  by_cases hd : dir = "downlink" <;>
    simp [xrayGetTraffic, xrayStatStep, h0, h, processClientTraffic, alistGet,
      alistSet, hd]

theorem string_mk_data (s : String) : String.mk s.data = s := rfl

theorem parseTrafficKey_tag_key (typ tag dir : String)
    (htyp : typ = "inbound" ∨ typ = "outbound")
    (htag : ∀ c ∈ tag.data, c ≠ '>')
    (hdir : dir = "downlink" ∨ dir = "uplink") :
    parseTrafficKey (typ ++ ">>>" ++ tag ++ ">>>traffic>>>" ++ dir) =
      some [("type", typ), ("tag", tag), ("direction", dir)] := by
  rcases htyp with rfl | rfl <;> rcases hdir with rfl | rfl <;>
  · unfold parseTrafficKey
    rw [splitSep3_key _ _ _ (by decide) htag (by decide)]
    simp [string_mk_data, alistSet]

theorem parseTrafficKey_user_key (email dir : String)
    (hemail : ∀ c ∈ email.data, c ≠ '>')
    (hdir : dir = "downlink" ∨ dir = "uplink") :
    parseTrafficKey ("user" ++ ">>>" ++ email ++ ">>>traffic>>>" ++ dir) =
      some [("type", "user"), ("email", email), ("direction", dir)] := by
  rcases hdir with rfl | rfl <;>
  · unfold parseTrafficKey
    rw [splitSep3_key _ _ _ (by decide) hemail (by decide)]
    simp [string_mk_data, alistSet]

theorem singBoxGetTraffic_single_tag (typ tag dir : String) (v : Int)
    (htyp : typ = "inbound" ∨ typ = "outbound")
    (htag : ∀ c ∈ tag.data, c ≠ '>')
    (hdir : dir = "downlink" ∨ dir = "uplink") :
    singBoxGetTraffic [(typ ++ ">>>" ++ tag ++ ">>>traffic>>>" ++ dir, v)] =
      ([if dir = "downlink" then
          { isInbound := typ == "inbound", isOutbound := !(typ == "inbound"),
            tag := tag, up := 0, down := v }
        else
          { isInbound := typ == "inbound", isOutbound := !(typ == "inbound"),
            tag := tag, up := v, down := 0 }], []) := by
  have hk := parseTrafficKey_tag_key typ tag dir htyp htag hdir
  rcases htyp with rfl | rfl <;> rcases hdir with rfl | rfl <;>
  · simp only [singBoxGetTraffic, List.foldl, singBoxStatStep, hk]
    simp [mgetD, alistGet, alistSet]

theorem singBoxGetTraffic_single_user (email dir : String) (v : Int)
    (hemail : ∀ c ∈ email.data, c ≠ '>')
    (hdir : dir = "downlink" ∨ dir = "uplink") :
    singBoxGetTraffic [("user" ++ ">>>" ++ email ++ ">>>traffic>>>" ++ dir, v)] =
      ([], [if dir = "downlink" then { email := email, up := 0, down := v }
            else { email := email, up := v, down := 0 }]) := by
  have hk := parseTrafficKey_user_key email dir hemail hdir
  rcases hdir with rfl | rfl <;>
  · simp only [singBoxGetTraffic, List.foldl, singBoxStatStep, hk]
    simp [mgetD, alistGet, alistSet]

/-- C1: for every traffic-stat key parsed by a Control-API client's GetTraffic
(both the xray gRPC client and the sing-box HTTP client), a key ending in
downlink assigns its value to the record's Down field and a key ending in
uplink assigns it to the Up field, for inbound/outbound tag-keyed Traffic
records as well as per-user email-keyed ClientTraffic records; in particular a
single key of the form user>>>E>>>traffic>>>downlink with value v yields the
client record with email E, Down v and Up 0. -/
theorem c1_traffic_directionality :
    (∀ (key kind tag dir : String) (v : Int),
        findTagTraffic key.data = some (kind, tag, dir) → tag ≠ "api" →
        xrayGetTraffic [(key, v)] =
          ([if dir = "downlink" then
              { isInbound := kind == "inbound",
                isOutbound := !(kind == "inbound"),
                tag := tag, up := 0, down := v }
            else
              { isInbound := kind == "inbound",
                isOutbound := !(kind == "inbound"),
                tag := tag, up := v, down := 0 }], []))
    ∧ (∀ (key email dir : String) (v : Int),
        findTagTraffic key.data = none →
        findUserTraffic key.data = some (email, dir) →
        xrayGetTraffic [(key, v)] =
          ([], [if dir = "downlink" then { email := email, up := 0, down := v }
                else { email := email, up := v, down := 0 }]))
    ∧ (∀ (typ tag dir : String) (v : Int),
        typ = "inbound" ∨ typ = "outbound" →
        (∀ c ∈ tag.data, c ≠ '>') →
        dir = "downlink" ∨ dir = "uplink" →
        singBoxGetTraffic [(typ ++ ">>>" ++ tag ++ ">>>traffic>>>" ++ dir, v)] =
          ([if dir = "downlink" then
              { isInbound := typ == "inbound",
                isOutbound := !(typ == "inbound"),
                tag := tag, up := 0, down := v }
            else
              { isInbound := typ == "inbound",
                isOutbound := !(typ == "inbound"),
                tag := tag, up := v, down := 0 }], []))
    ∧ (∀ (email dir : String) (v : Int),
        (∀ c ∈ email.data, c ≠ '>') →
        dir = "downlink" ∨ dir = "uplink" →
        singBoxGetTraffic
            [("user" ++ ">>>" ++ email ++ ">>>traffic>>>" ++ dir, v)] =
          ([], [if dir = "downlink" then { email := email, up := 0, down := v }
                else { email := email, up := v, down := 0 }]))
    ∧ (∀ (email : String) (v : Int), (∀ c ∈ email.data, c ≠ '>') →
        singBoxGetTraffic
            [("user" ++ ">>>" ++ email ++ ">>>traffic>>>" ++ "downlink", v)] =
          ([], [{ email := email, up := 0, down := v }])) := by
  refine ⟨xrayGetTraffic_single_tag, xrayGetTraffic_single_user,
    singBoxGetTraffic_single_tag, singBoxGetTraffic_single_user, ?_⟩
  intro email v h
  simpa using singBoxGetTraffic_single_user email "downlink" v h (Or.inl rfl)

/-- Witness for C1 at concrete keys of every shape. -/
theorem c1_traffic_directionality_witness :
    xrayGetTraffic [("inbound>>>web>>>traffic>>>downlink", 7)] =
      ([{ isInbound := true, isOutbound := false, tag := "web",
          up := 0, down := 7 }], []) ∧
    xrayGetTraffic [("user>>>alice@example.com>>>traffic>>>uplink", 42)] =
      ([], [{ email := "alice@example.com", up := 42, down := 0 }]) ∧
    singBoxGetTraffic
        [("outbound" ++ ">>>" ++ "direct" ++ ">>>traffic>>>" ++ "uplink", 9)] =
      ([{ isInbound := false, isOutbound := true, tag := "direct",
          up := 9, down := 0 }], []) ∧
    singBoxGetTraffic
        [("user" ++ ">>>" ++ "alice@example.com" ++ ">>>traffic>>>" ++
          "downlink", 1000)] =
      ([], [{ email := "alice@example.com", up := 0, down := 1000 }]) := by
  refine ⟨?_, ?_, ?_, ?_⟩
  · have h := c1_traffic_directionality.1 "inbound>>>web>>>traffic>>>downlink"
      "inbound" "web" "downlink" 7 (by decide) (by decide)
    rw [if_pos rfl] at h
    simpa using h
  · have h := c1_traffic_directionality.2.1
      "user>>>alice@example.com>>>traffic>>>uplink" "alice@example.com"
      "uplink" 42 (by decide) (by decide)
    rw [if_neg (by decide)] at h
    exact h
  · have h := c1_traffic_directionality.2.2.1 "outbound" "direct" "uplink" 9
      (Or.inr rfl) (by decide) (Or.inr rfl)
    rw [if_neg (by decide)] at h
    simpa using h
  · exact c1_traffic_directionality.2.2.2.2 "alice@example.com" 1000
      (by decide)

/-! ## The reserved control-channel tag in tag aggregation. -/

/-- Invariant of the xray tag-keyed traffic map: every entry is stored under
its own tag and the reserved tag never appears. -/
def TagMapOk (m : List (String × Traffic)) : Prop :=
  ∀ p ∈ m, p.2.tag = p.1 ∧ p.1 ≠ "api"

theorem processTraffic_tagMapOk (kind tag dir : String) (v : Int)
    (m : List (String × Traffic)) (hm : TagMapOk m) :
    TagMapOk (processTraffic kind tag dir v m) := by
  intro p hp
  by_cases htag : (tag == "api") = true
  · simp only [processTraffic, htag, if_true] at hp
    exact hm p hp
  · have htagne : tag ≠ "api" := by simpa using htag
    simp only [processTraffic, htag] at hp
    rw [if_neg (by simp [htag])] at hp
    rcases alistSet_mem hp with hpe | hp'
    · subst hpe
      refine ⟨?_, htagne⟩
      cases hg : alistGet m tag with
      | none => simp only [hg]; split <;> rfl
      | some t =>
        have ht := (hm (tag, t) (alistGet_mem hg)).1
        simp only [hg]
        split <;> simpa using ht
    · exact hm p hp'

theorem xrayStatStep_tagMapOk
    (maps : List (String × Traffic) × List (String × ClientTraffic))
    (stat : String × Int) (h : TagMapOk maps.1) :
    TagMapOk (xrayStatStep maps stat).1 := by
  unfold xrayStatStep
  cases hf : findTagTraffic stat.1.data with
  | some m => exact processTraffic_tagMapOk _ _ _ _ _ h
  | none =>
    cases hu : findUserTraffic stat.1.data with
    | some m => exact h
    | none => exact h

theorem xrayFold_tagMapOk (stats : List (String × Int))
    (maps : List (String × Traffic) × List (String × ClientTraffic))
    (h : TagMapOk maps.1) :
    TagMapOk (stats.foldl xrayStatStep maps).1 := by
  induction stats generalizing maps with
  | nil => simpa using h
  | cons s stats ih => exact ih _ (xrayStatStep_tagMapOk _ _ h)

/-- C9 counterexample: the sing-box client does not exclude the reserved
control-channel tag, so a stat keyed by the api tag produces a Traffic record
tagged api, contradicting the claim that both clients exclude it. -/
theorem c9_api_tag_counterexample :
    singBoxGetTraffic [("inbound>>>api>>>traffic>>>downlink", 5)] =
      ([{ isInbound := true, isOutbound := false, tag := "api",
          up := 0, down := 5 }], []) := by
  decide

/-- C9 (amended): only the xray Control-API client excludes a tag literally
equal to the reserved control-channel name from inbound/outbound tag
aggregation — no Traffic record with that tag ever appears in its returned
slice — while the sing-box client performs no such exclusion and returns the
record. -/
theorem c9_api_tag_exclusion_amended :
    (∀ (stats : List (String × Int)) (t : Traffic),
        t ∈ (xrayGetTraffic stats).1 → t.tag ≠ "api")
    ∧ (singBoxGetTraffic [("inbound>>>api>>>traffic>>>downlink", 5)]).1.map
        Traffic.tag = ["api"] := by
  constructor
  · intro stats t ht
    unfold xrayGetTraffic at ht
    rcases List.mem_map.mp ht with ⟨p, hp, rfl⟩
    have hinv := xrayFold_tagMapOk stats ([], []) (by intro q hq; simp at hq)
    have h2 := hinv p hp
    rw [h2.1]
    exact h2.2
  · decide

/-- Witness for the amended C9 at a concrete stat response. -/
theorem c9_api_tag_exclusion_amended_witness :
    ({ isInbound := true, isOutbound := false, tag := "web",
       up := 0, down := 7 } : Traffic).tag ≠ "api" :=
  c9_api_tag_exclusion_amended.1 [("inbound>>>web>>>traffic>>>downlink", 7)] _
    (by decide)

/-! ## A structural model of decoded JSON values.
Blobs held as raw bytes in the Go config structs are modelled as decoded
values; a blob that is empty or fails to decode is modelled as the absence of
a value, matching the code paths that skip a section when unmarshalling
fails.  Objects are association lists in insertion order; Go map writes keep
the position of an existing key and append a new one. -/

inductive JVal where
  | jnull : JVal
  | jbool : Bool → JVal
  | jnum : Int → JVal
  | jstr : String → JVal
  | jarr : List JVal → JVal
  | jobj : List (String × JVal) → JVal

abbrev JObj := List (String × JVal)

/-- Type assertion to a string, as in a Go interface assertion. -/
def JVal.asStr : JVal → Option String
  | .jstr s => some s
  | _ => none

/-- Type assertion to a boolean. -/
def JVal.asBool : JVal → Option Bool
  | .jbool b => some b
  | _ => none

/-- Type assertion to a decoded JSON array. -/
def JVal.asArr : JVal → Option (List JVal)
  | .jarr xs => some xs
  | _ => none

/-- Type assertion to a decoded JSON object. -/
def JVal.asObj : JVal → Option JObj
  | .jobj o => some o
  | _ => none

/-- Decoding into a list of objects, which fails when any element is not an
object, as unmarshalling into a Go slice of maps does. -/
def JVal.asObjArr (v : JVal) : Option (List JObj) :=
  v.asArr.bind (fun xs => xs.mapM JVal.asObj)

/-- Delete a key from an object, modelling a Go map delete. -/
def alistDel {α : Type} (m : List (String × α)) (k : String) :
    List (String × α) :=
  match m with
  | [] => []
  | (k', v') :: rest => if k' == k then rest else (k', v') :: alistDel rest k

/-- Combined read and string assertion on an object field. -/
def getStr (o : JObj) (k : String) : Option String :=
  (alistGet o k).bind JVal.asStr

/-- Combined read and object assertion on an object field. -/
def getObj (o : JObj) (k : String) : Option JObj :=
  (alistGet o k).bind JVal.asObj

/-- Combined read and array assertion on an object field. -/
def getArr (o : JObj) (k : String) : Option (List JVal) :=
  (alistGet o k).bind JVal.asArr

/-- Combined read and boolean assertion on an object field. -/
def getBool (o : JObj) (k : String) : Option Bool :=
  (alistGet o k).bind JVal.asBool

/-- The string elements of a decoded array, dropping everything else, as the
per-element type assertions in the converter loops do. -/
def strElems : List JVal → List String
  | [] => []
  | x :: rest =>
    match x.asStr with
    | some s => s :: strElems rest
    | none => strElems rest

/-! ## Config models (xray Config/InboundConfig and singbox Config/InboundConfig). -/

/-- One xray inbound: listen, port, protocol, raw settings, raw stream
settings, tag and raw sniffing blob. -/
structure XrayInboundConfig where
  listen : Option JVal
  port : Int
  protocol : String
  settings : Option JVal
  streamSettings : Option JVal
  tag : String
  sniffing : Option JVal

/-- The xray configuration sections the translator touches. -/
structure XrayConfig where
  logConfig : Option JVal
  dnsConfig : Option JVal
  inboundConfigs : List XrayInboundConfig
  outboundConfigs : Option JVal
  routerConfig : Option JVal

/-- One sing-box inbound as produced and consumed by the translator. -/
structure SingBoxInboundConfig where
  typ : String
  tag : String
  listen : Option JVal
  listenPort : Int
  users : Option JVal
  method : String
  password : String
  transport : Option JVal
  tls : Option JVal
  sniff : Bool
  sniffOverrideDestination : Bool

/-- The sing-box configuration sections the translator touches. -/
structure SingBoxConfig where
  log : Option JVal
  dns : Option JVal
  inbounds : List SingBoxInboundConfig
  outbounds : Option JVal
  route : Option JVal

/-! ## The xray to sing-box translator (singbox/convert.go). -/

/-- The fixed sing-box inbound protocol support set of the converter. -/
def supportedSingBoxProtocols : List String :=
  ["direct", "mixed", "socks", "http", "shadowsocks", "vmess", "trojan",
   "naive", "hysteria", "shadowtls", "tuic", "hysteria2", "vless", "anytls",
   "tun", "redirect", "tproxy"]

/-- Conversion of one xray client entry into a sing-box user entry, the body
of the clients loop for the vmess and vless protocols: the id field is
renamed to uuid; a non-empty email is renamed to name for vless only and is
dropped for vmess; a non-empty flow is preserved. -/
def convertClientToUser (protocol : String) (c : JObj) : JObj :=
  let user : JObj := []
  let user :=
    match getStr c "id" with
    | some uuid => alistSet user "uuid" (JVal.jstr uuid)
    | none => user
  let user :=
    match getStr c "email" with
    | some email =>
      if email ≠ "" ∧ protocol = "vless" then
        alistSet user "name" (JVal.jstr email)
      else user
    | none => user
  match getStr c "flow" with
  | some flow =>
    if flow ≠ "" then alistSet user "flow" (JVal.jstr flow) else user
  | none => user

/-- The clients loop of the settings conversion: entries that are not
objects are skipped. -/
def convertClientsToUsers (protocol : String) : List JVal → List JObj
  | [] => []
  | c :: rest =>
    match c.asObj with
    | some o => convertClientToUser protocol o :: convertClientsToUsers protocol rest
    | none => convertClientsToUsers protocol rest

/-- The transport object built from xray stream settings: only non-tcp
networks produce a type, with path/headers for ws and service name for
grpc.  A missing path or service name is written as a null value, as a Go
map read of an absent key yields. -/
def convertStreamToTransport (stream : JObj) : JObj :=
  match getStr stream "network" with
  | some network =>
    if network = "tcp" then []
    else
      let t0 := alistSet [] "type" (JVal.jstr network)
      if network = "ws" then
        match getObj stream "wsSettings" with
        | some ws =>
          let t1 := alistSet t0 "path" ((alistGet ws "path").getD JVal.jnull)
          match getObj ws "headers" with
          | some hs => alistSet t1 "headers" (JVal.jobj hs)
          | none => t1
        | none => t0
      else if network = "grpc" then
        match getObj stream "grpcSettings" with
        | some gs =>
          alistSet t0 "service_name" ((alistGet gs "serviceName").getD JVal.jnull)
        | none => t0
      else t0
  | none => []

/-- The sing-box TLS section built from xray stream settings with security
tls: certificate/key paths, server name and alpn copied with renames, the
enabled flag written last. -/
def convertTlsSettings (tlsSettings : JObj) : JVal :=
  let t0 : JObj := []
  let t1 :=
    match getStr tlsSettings "certificateFile" with
    | some c => alistSet t0 "certificate_path" (JVal.jstr c)
    | none => t0
  let t2 :=
    match getStr tlsSettings "keyFile" with
    | some k => alistSet t1 "key_path" (JVal.jstr k)
    | none => t1
  let t3 :=
    match getStr tlsSettings "serverName" with
    | some s => alistSet t2 "server_name" (JVal.jstr s)
    | none => t2
  let t4 :=
    match getArr tlsSettings "alpn" with
    | some a => alistSet t3 "alpn" (JVal.jarr a)
    | none => t3
  JVal.jobj (alistSet t4 "enabled" (JVal.jbool true))

/-- The sing-box TLS section built from xray reality settings: the server
name is placed at the TLS level, sourced from dest or the first entry of
serverNames; the nested reality object carries the enabled flag, a handshake
synthesized from the same source, the private key and the short ids coerced
to an array of strings.  The maxTimeDiff branch of the source asserts the
decoded value to a 64-bit integer, which a JSON-decoded number never is, so
it contributes nothing. -/
def convertRealitySettings (rs : JObj) : JVal :=
  let tls0 : JObj := [("enabled", JVal.jbool true)]
  let tls1 :=
    match getStr rs "dest" with
    | some dest => alistSet tls0 "server_name" (JVal.jstr dest)
    | none =>
      match getArr rs "serverNames" with
      | some (sn0 :: _) =>
        match sn0.asStr with
        | some s => alistSet tls0 "server_name" (JVal.jstr s)
        | none => tls0
      | _ => tls0
  let r0 : JObj := [("enabled", JVal.jbool true)]
  let r1 :=
    match getStr rs "dest" with
    | some dest =>
      alistSet r0 "handshake" (JVal.jobj [("server", JVal.jstr dest)])
    | none =>
      match getArr rs "serverNames" with
      | some (sn0 :: _) =>
        match sn0.asStr with
        | some s => alistSet r0 "handshake" (JVal.jobj [("server", JVal.jstr s)])
        | none => r0
      | _ => r0
  let r2 :=
    match getStr rs "privateKey" with
    | some pk => alistSet r1 "private_key" (JVal.jstr pk)
    | none => r1
  let r3 :=
    match getArr rs "shortIds" with
    | some sids =>
      if sids.length > 0 then
        let arr := strElems sids
        if arr.length > 0 then
          alistSet r2 "short_id" (JVal.jarr (arr.map JVal.jstr))
        else r2
      else r2
    | none => r2
  JVal.jobj (alistSet tls1 "reality" (JVal.jobj r3))

/-- The TLS section of the converted inbound, driven by the stream security
field. -/
def convertStreamToTls (stream : JObj) : Option JVal :=
  match getStr stream "security" with
  | some sec =>
    if sec = "tls" then
      match getObj stream "tlsSettings" with
      | some ts => some (convertTlsSettings ts)
      | none => none
    else if sec = "reality" then
      match getObj stream "realitySettings" with
      | some rs => some (convertRealitySettings rs)
      | none => none
    else none
  | none => none

/-- Conversion of one xray inbound to a sing-box inbound; protocols outside
the support set yield nothing. -/
def convertXrayInboundToSingBox (ib : XrayInboundConfig) :
    Option SingBoxInboundConfig :=
  if ¬ supportedSingBoxProtocols.contains ib.protocol then none
  else
    let base : SingBoxInboundConfig := {
      typ := ib.protocol, tag := ib.tag, listenPort := ib.port,
      listen := some ((ib.listen).getD JVal.jnull),
      users := none, method := "", password := "",
      transport := none, tls := none,
      sniff := false, sniffOverrideDestination := false }
    let sb :=
      match ib.settings.bind JVal.asObj with
      | none => base
      | some settings =>
        match ib.protocol, getArr settings "clients" with
        | "vmess", some clients =>
          let users := convertClientsToUsers ib.protocol clients
          if users.length > 0 then
            { base with users := some (JVal.jarr (users.map JVal.jobj)) }
          else base
        | "vless", some clients =>
          let users := convertClientsToUsers ib.protocol clients
          if users.length > 0 then
            { base with users := some (JVal.jarr (users.map JVal.jobj)) }
          else base
        | "trojan", some (c :: _) =>
          match c.asObj with
          | some o =>
            match getStr o "password" with
            | some pw => { base with password := pw }
            | none => base
          | none => base
        | "shadowsocks", _ =>
          let b1 :=
            match getStr settings "method" with
            | some m => { base with method := m }
            | none => base
          match getStr settings "password" with
          | some pw => { b1 with password := pw }
          | none => b1
        | _, _ => base
    let sb :=
      match ib.streamSettings.bind JVal.asObj with
      | none => sb
      | some stream =>
        let transport := convertStreamToTransport stream
        let sb :=
          match convertStreamToTls stream with
          | some t => { sb with tls := some t }
          | none => sb
        if (alistGet transport "type").isSome then
          { sb with transport := some (JVal.jobj transport) }
        else sb
    let sb :=
      match ib.sniffing.bind JVal.asObj with
      | none => sb
      | some sniffObj =>
        let sb :=
          match getBool sniffObj "enabled" with
          | some e => { sb with sniff := e }
          | none => sb
        match getArr sniffObj "destOverride" with
        | some xs =>
          if xs.length > 0 then { sb with sniffOverrideDestination := true }
          else sb
        | none => sb
    some sb

/-! ## Config-level xray to sing-box conversion (ConvertXrayToSingBox). -/

/-- Log-section conversion: loglevel becomes level with a warn default, a
single output field prefers the error path over the access path, and a
timestamp flag is always added.  An absent log section produces the default
sing-box log; an undecodable one leaves the target section unset. -/
def convertXrayLogToSingBox (logConfig : Option JVal) : Option JVal :=
  match logConfig with
  | none =>
    some (JVal.jobj [("level", JVal.jstr "warn"), ("timestamp", JVal.jbool true)])
  | some lv =>
    match lv.asObj with
    | none => none
    | some xrayLog =>
      let sbLog : JObj := []
      let sbLog :=
        match getStr xrayLog "loglevel" with
        | some level => alistSet sbLog "level" (JVal.jstr level)
        | none => alistSet sbLog "level" (JVal.jstr "warn")
      let sbLog :=
        match getStr xrayLog "error" with
        | some errorLog =>
          if errorLog ≠ "" then alistSet sbLog "output" (JVal.jstr errorLog)
          else
            match getStr xrayLog "access" with
            | some access =>
              if access ≠ "" then alistSet sbLog "output" (JVal.jstr access)
              else sbLog
            | none => sbLog
        | none =>
          match getStr xrayLog "access" with
          | some access =>
            if access ≠ "" then alistSet sbLog "output" (JVal.jstr access)
            else sbLog
          | none => sbLog
      some (JVal.jobj (alistSet sbLog "timestamp" (JVal.jbool true)))

/-- One outbound of the xray list: protocol aliases freedom and blackhole
are renamed with their settings cleaned, the tun and tunnel types are
dropped from the list, the protocol field is renamed to type and a nested
domain strategy is lifted to the outbound level. -/
def convertOneXrayOutbound (ob : JObj) : Option JObj :=
  match getStr ob "protocol" with
  | some "tun" => none
  | some "tunnel" => none
  | p =>
    let ob :=
      match p with
      | some "freedom" =>
        let ob := alistSet ob "protocol" (JVal.jstr "direct")
        match getObj ob "settings" with
        | some s =>
          alistSet ob "settings"
            (JVal.jobj (alistDel (alistDel (alistDel s "domainStrategy")
              "redirect") "noises"))
        | none => ob
      | some "blackhole" =>
        let ob := alistSet ob "protocol" (JVal.jstr "block")
        alistSet ob "settings" (JVal.jobj [])
      | _ => ob
    let ob :=
      match getStr ob "protocol" with
      | some prot => alistDel (alistSet ob "type" (JVal.jstr prot)) "protocol"
      | none => ob
    let ob :=
      match getObj ob "settings" with
      | some s =>
        match getStr s "domainStrategy" with
        | some ds =>
          let ob := alistSet ob "domain_strategy" (JVal.jstr ds)
          alistSet ob "settings" (JVal.jobj (alistDel s "domainStrategy"))
        | none => ob
      | none => ob
    some ob

/-- The outbound list conversion; a blob that does not decode into a list
of objects leaves the target section unset. -/
def convertXrayOutboundsToSingBox (outbounds : Option JVal) : Option JVal :=
  match outbounds with
  | none => none
  | some ov =>
    match ov.asObjArr with
    | none => none
    | some arr =>
      some (JVal.jarr ((arr.filterMap convertOneXrayOutbound).map JVal.jobj))

/-- Partition of a route-rule ip list: the names of geoip-prefixed string
entries and the remaining string entries, non-strings dropped. -/
def extractGeoip : List JVal → List String × List JVal
  | [] => ([], [])
  | x :: rest =>
    let gr := extractGeoip rest
    match x.asStr with
    | some s =>
      if "geoip:".data.isPrefixOf s.data then
        ((String.mk (s.data.drop 6)) :: gr.1, gr.2)
      else (gr.1, JVal.jstr s :: gr.2)
    | none => gr

/-- The field-rename stage of one route rule: the field marker is removed
and outboundTag and inboundTag are renamed to their sing-box names. -/
def convertRuleRenames (ruleMap : JObj) : JObj :=
  let ruleMap := alistDel ruleMap "type"
  let ruleMap :=
    match getStr ruleMap "outboundTag" with
    | some t => alistDel (alistSet ruleMap "outbound" (JVal.jstr t)) "outboundTag"
    | none => ruleMap
  match getArr ruleMap "inboundTag" with
  | some ts => alistDel (alistSet ruleMap "inbound" (JVal.jarr ts)) "inboundTag"
  | none => ruleMap

/-- One route rule of the xray route section: the field marker is dropped,
outboundTag and inboundTag are renamed, geoip-prefixed ip entries are
extracted into a geoip array when a geoip database is configured and the
whole rule is dropped otherwise; a rule carrying a non-empty decoded geoip
field without a configured database is dropped as well.  In the source the
geoip array written by the extraction step is a string slice that the later
interface-slice assertion never matches; in this model the assertion can
match it, but only in states where the configured-database flag is true, in
which case neither model drops the rule, so the behaviour agrees. -/
def convertXrayRouteRule (hasGeoipConfig : Bool) (rule : JVal) : Option JVal :=
  match rule.asObj with
  | none => some rule
  | some rm =>
    let ruleMap := convertRuleRenames rm
    let step : Option JObj :=
      match getArr ruleMap "ip" with
      | some ip =>
        let gr := extractGeoip ip
        if gr.1.length > 0 ∧ ¬ hasGeoipConfig then none
        else
          let ruleMap :=
            if gr.1.length > 0 then
              alistDel (alistSet ruleMap "geoip" (JVal.jarr (gr.1.map JVal.jstr))) "ip"
            else ruleMap
          let ruleMap :=
            if gr.2.length > 0 then alistSet ruleMap "ip" (JVal.jarr gr.2)
            else if gr.1.length = 0 then alistDel ruleMap "ip"
            else ruleMap
          some ruleMap
      | none => some ruleMap
    match step with
    | none => none
    | some ruleMap =>
      match alistGet ruleMap "geoip" with
      | some (JVal.jarr g) =>
        if g.length > 0 ∧ ¬ hasGeoipConfig then none else some (JVal.jobj ruleMap)
      | some (JVal.jstr s) =>
        if s ≠ "" ∧ ¬ hasGeoipConfig then none else some (JVal.jobj ruleMap)
      | _ => some (JVal.jobj ruleMap)

/-- The route-section conversion: domain-strategy fields are removed, the
configured-geoip flag is read from the geoip object of the route itself and
the rules list is rewritten rule by rule; an undecodable route is passed
through unchanged. -/
def convertXrayRouteToSingBox (route : JVal) : JVal :=
  match route.asObj with
  | none => route
  | some routeMap =>
    let routeMap := alistDel routeMap "domainStrategy"
    let routeMap := alistDel routeMap "domain_strategy"
    let hasGeoipConfig := ((alistGet routeMap "geoip").bind JVal.asObj).isSome
    let routeMap :=
      match getArr routeMap "rules" with
      | some rules =>
        alistSet routeMap "rules"
          (JVal.jarr (rules.filterMap (convertXrayRouteRule hasGeoipConfig)))
      | none => routeMap
    JVal.jobj routeMap

/-- The whole xray to sing-box configuration conversion. -/
def ConvertXrayToSingBox (cfg : XrayConfig) : SingBoxConfig :=
  { log := convertXrayLogToSingBox cfg.logConfig
    dns := cfg.dnsConfig
    inbounds := cfg.inboundConfigs.filterMap convertXrayInboundToSingBox
    outbounds := convertXrayOutboundsToSingBox cfg.outboundConfigs
    route :=
      match cfg.routerConfig with
      | none => none
      | some r => some (convertXrayRouteToSingBox r) }

/-! ## The sing-box to xray translator (ConvertSingBoxToXray). -/

/-- Conversion of one sing-box user entry back to an xray client: uuid
becomes id, a non-empty name becomes email with a non-empty email field as
fallback, and a flow string is copied. -/
def convertUserToClient (user : JObj) : JObj :=
  let c : JObj := []
  let c :=
    match getStr user "uuid" with
    | some u => alistSet c "id" (JVal.jstr u)
    | none => c
  let nameVal :=
    match getStr user "name" with
    | some n => if n ≠ "" then some n else none
    | none => none
  let c :=
    match nameVal with
    | some n => alistSet c "email" (JVal.jstr n)
    | none =>
      match getStr user "email" with
      | some e => if e ≠ "" then alistSet c "email" (JVal.jstr e) else c
      | none => c
  match getStr user "flow" with
  | some f => alistSet c "flow" (JVal.jstr f)
  | none => c

/-- The sing-box TLS section decoded back into xray stream settings: a
reality object restores security reality with the TLS-level server name
copied into both dest and a one-element serverNames array, the private key
and the short ids restored, a bare short-id string wrapped into an array;
otherwise security tls with the certificate fields renamed back. -/
def convertTlsToStream (tlsConfig : JObj) (stream : JObj) : JObj :=
  match getObj tlsConfig "reality" with
  | some reality =>
    let stream := alistSet stream "security" (JVal.jstr "reality")
    let rs : JObj := []
    let rs :=
      match getStr tlsConfig "server_name" with
      | some sn =>
        alistSet (alistSet rs "dest" (JVal.jstr sn)) "serverNames"
          (JVal.jarr [JVal.jstr sn])
      | none => rs
    let rs :=
      match getStr reality "private_key" with
      | some pk => alistSet rs "privateKey" (JVal.jstr pk)
      | none => rs
    let rs :=
      match alistGet reality "short_id" with
      | some (JVal.jarr sids) =>
        if sids.length > 0 then
          let arr := strElems sids
          if arr.length > 0 then
            alistSet rs "shortIds" (JVal.jarr (arr.map JVal.jstr))
          else rs
        else rs
      | some (JVal.jstr s) => alistSet rs "shortIds" (JVal.jarr [JVal.jstr s])
      | _ => rs
    alistSet stream "realitySettings" (JVal.jobj rs)
  | none =>
    let stream := alistSet stream "security" (JVal.jstr "tls")
    let ts : JObj := []
    let ts :=
      match getStr tlsConfig "certificate_path" with
      | some c => alistSet ts "certificateFile" (JVal.jstr c)
      | none => ts
    let ts :=
      match getStr tlsConfig "key_path" with
      | some k => alistSet ts "keyFile" (JVal.jstr k)
      | none => ts
    let ts :=
      match getStr tlsConfig "server_name" with
      | some s => alistSet ts "serverName" (JVal.jstr s)
      | none => ts
    let ts :=
      match getArr tlsConfig "alpn" with
      | some a => alistSet ts "alpn" (JVal.jarr a)
      | none => ts
    alistSet stream "tlsSettings" (JVal.jobj ts)

/-- The sing-box transport object decoded back into xray stream settings. -/
def convertTransportToStream (transport : JObj) (stream : JObj) : JObj :=
  match getStr transport "type" with
  | some networkType =>
    let stream := alistSet stream "network" (JVal.jstr networkType)
    if networkType = "ws" then
      let ws : JObj := []
      let ws :=
        match getStr transport "path" with
        | some p => alistSet ws "path" (JVal.jstr p)
        | none => ws
      let ws :=
        match getObj transport "headers" with
        | some hs => alistSet ws "headers" (JVal.jobj hs)
        | none => ws
      alistSet stream "wsSettings" (JVal.jobj ws)
    else if networkType = "grpc" then
      let gs : JObj := []
      let gs :=
        match getStr transport "service_name" with
        | some sn => alistSet gs "serviceName" (JVal.jstr sn)
        | none => gs
      alistSet stream "grpcSettings" (JVal.jobj gs)
    else stream
  | none => stream

/-- Conversion of one sing-box inbound back to an xray inbound; this
direction never rejects an inbound. -/
def convertSingBoxInboundToXray (sb : SingBoxInboundConfig) : XrayInboundConfig :=
  let settings : JObj :=
    match sb.typ with
    | "vmess" =>
      match sb.users with
      | some uv =>
        match uv.asObjArr with
        | some users =>
          alistSet [] "clients"
            (JVal.jarr ((users.map convertUserToClient).map JVal.jobj))
        | none => []
      | none => []
    | "vless" =>
      match sb.users with
      | some uv =>
        match uv.asObjArr with
        | some users =>
          alistSet [] "clients"
            (JVal.jarr ((users.map convertUserToClient).map JVal.jobj))
        | none => []
      | none => []
    | "trojan" =>
      if sb.password ≠ "" then
        alistSet [] "clients"
          (JVal.jarr [JVal.jobj [("password", JVal.jstr sb.password)]])
      else []
    | "shadowsocks" =>
      let s : JObj := []
      let s := if sb.method ≠ "" then alistSet s "method" (JVal.jstr sb.method) else s
      if sb.password ≠ "" then alistSet s "password" (JVal.jstr sb.password) else s
    | _ => []
  let stream : JObj := []
  let stream :=
    match sb.transport.bind JVal.asObj with
    | some transport => convertTransportToStream transport stream
    | none => stream
  let stream :=
    match sb.tls.bind JVal.asObj with
    | some tlsConfig => convertTlsToStream tlsConfig stream
    | none => stream
  { protocol := sb.typ
    tag := sb.tag
    port := sb.listenPort
    listen := sb.listen
    settings := some (JVal.jobj settings)
    streamSettings := if stream.length > 0 then some (JVal.jobj stream) else none
    sniffing :=
      if sb.sniff then
        let sn := alistSet [] "enabled" (JVal.jbool true)
        some (JVal.jobj
          (if sb.sniffOverrideDestination then
            alistSet sn "destOverride"
              (JVal.jarr [JVal.jstr "http", JVal.jstr "tls"])
          else sn))
      else none }

/-- Log-section conversion of the reverse direction: level back to loglevel,
output back to access, an error field copied; no synthesis of defaults. -/
def convertSingBoxLogToXray (log : Option JVal) : Option JVal :=
  match log with
  | none => none
  | some lv =>
    match lv.asObj with
    | none => none
    | some sbLog =>
      let x : JObj := []
      let x :=
        match getStr sbLog "level" with
        | some l => alistSet x "loglevel" (JVal.jstr l)
        | none => x
      let x :=
        match getStr sbLog "output" with
        | some o => alistSet x "access" (JVal.jstr o)
        | none => x
      let x :=
        match getStr sbLog "error" with
        | some e => alistSet x "error" (JVal.jstr e)
        | none => x
      some (JVal.jobj x)

/-- One outbound of the reverse direction: the domain strategy moves back
into the settings object and type is renamed back to protocol; there is no
reverse alias table. -/
def convertOneSingBoxOutbound (ob : JObj) : JObj :=
  let ob :=
    match getStr ob "domain_strategy" with
    | some ds =>
      let s := (getObj ob "settings").getD []
      let ob := alistSet ob "settings" (JVal.jobj (alistSet s "domainStrategy" (JVal.jstr ds)))
      alistDel ob "domain_strategy"
    | none => ob
  match getStr ob "type" with
  | some t => alistDel (alistSet ob "protocol" (JVal.jstr t)) "type"
  | none => ob

/-- The outbound list conversion of the reverse direction; an undecodable
blob is used as-is. -/
def convertSingBoxOutboundsToXray (outbounds : Option JVal) : Option JVal :=
  match outbounds with
  | none => none
  | some ov =>
    match ov.asObjArr with
    | none => some ov
    | some arr =>
      some (JVal.jarr ((arr.map convertOneSingBoxOutbound).map JVal.jobj))

/-- The whole sing-box to xray configuration conversion; the route section
is copied as-is. -/
def ConvertSingBoxToXray (cfg : SingBoxConfig) : XrayConfig :=
  { logConfig := convertSingBoxLogToXray cfg.log
    dnsConfig := cfg.dns
    inboundConfigs := cfg.inbounds.map convertSingBoxInboundToXray
    outboundConfigs := convertSingBoxOutboundsToXray cfg.outbounds
    routerConfig := cfg.route }

/-! ## Read-after-write lemmas for the object model. -/

theorem alistGet_nil {α : Type} (k : String) :
    alistGet ([] : List (String × α)) k = none := rfl

theorem alistGet_set_self {α : Type} (m : List (String × α)) (k : String)
    (v : α) : alistGet (alistSet m k v) k = some v := by
  induction m with
  | nil => simp [alistSet, alistGet, List.find?]
  | cons q m ih =>
    obtain ⟨k', v'⟩ := q
    by_cases h : (k' == k) = true
    · simp [alistSet, h, alistGet, List.find?]
    · simp only [alistSet, h, if_false]
      simpa [alistGet, List.find?, h] using ih

theorem alistGet_set_ne {α : Type} (m : List (String × α)) (k k' : String)
    (v : α) (h : k' ≠ k) : alistGet (alistSet m k v) k' = alistGet m k' := by
  have hkk : (k == k') = false := beq_eq_false_iff_ne.mpr (Ne.symm h)
  induction m with
  | nil => simp [alistSet, alistGet, List.find?, hkk]
  | cons q m ih =>
    obtain ⟨k0, v0⟩ := q
    by_cases h0 : (k0 == k) = true
    · have hk0 : k0 = k := by simpa using h0
      subst hk0
      simp [alistSet, alistGet, List.find?, hkk, h0]
    · simp only [alistSet, h0, if_false]
      by_cases h1 : (k0 == k') = true
      · simp [alistGet, List.find?, h1]
      · simpa [alistGet, List.find?, h1] using ih

theorem alistGet_del_ne {α : Type} (m : List (String × α)) (k k' : String)
    (h : k' ≠ k) : alistGet (alistDel m k) k' = alistGet m k' := by
  have hkk : (k == k') = false := beq_eq_false_iff_ne.mpr (Ne.symm h)
  induction m with
  | nil => simp [alistDel]
  | cons q m ih =>
    obtain ⟨k0, v0⟩ := q
    by_cases h0 : (k0 == k) = true
    · have hk0 : k0 = k := by simpa using h0
      subst hk0
      simp [alistDel, alistGet, List.find?, hkk, h0]
    · simp only [alistDel, h0, if_false]
      by_cases h1 : (k0 == k') = true
      · simp [alistGet, List.find?, h1]
      · simpa [alistGet, List.find?, h1] using ih

theorem alistGet_del_self {α : Type} (m : List (String × α)) (k : String)
    (hnd : (m.map Prod.fst).Nodup) : alistGet (alistDel m k) k = none := by
  induction m with
  | nil => simp [alistDel, alistGet]
  | cons q m ih =>
    obtain ⟨k0, v0⟩ := q
    simp only [List.map_cons, List.nodup_cons] at hnd
    by_cases h0 : (k0 == k) = true
    · have hk0 : k0 = k := by simpa using h0
      subst hk0
      simp only [alistDel, h0, if_true]
      cases hg : alistGet m k0 with
      | none => rfl
      | some v =>
        exact absurd (List.mem_map_of_mem Prod.fst (alistGet_mem hg)) hnd.1
    · simp only [alistDel, h0, if_false]
      simpa [alistGet, List.find?, h0] using ih hnd.2

theorem strElems_map_jstr (sids : List String) :
    strElems (sids.map JVal.jstr) = sids := by
  induction sids with
  | nil => rfl
  | cons s sids ih => simp [strElems, JVal.asStr, ih]

/-! ## Client-entry translation facts. -/

theorem convertClientToUser_vless_shape (c : JObj) (uuid e f : String)
    (hid : getStr c "id" = some uuid) (he : getStr c "email" = some e)
    (hene : e ≠ "") (hf : getStr c "flow" = some f) (hfne : f ≠ "") :
    convertClientToUser "vless" c =
      [("uuid", JVal.jstr uuid), ("name", JVal.jstr e), ("flow", JVal.jstr f)] := by
  unfold convertClientToUser
  rw [hid, he, hf]
  simp [hene, hfne, alistSet]

theorem convertClientToUser_vmess_shape (c : JObj) (uuid f : String)
    (hid : getStr c "id" = some uuid) (hf : getStr c "flow" = some f)
    (hfne : f ≠ "") :
    convertClientToUser "vmess" c =
      [("uuid", JVal.jstr uuid), ("flow", JVal.jstr f)] := by
  unfold convertClientToUser
  rw [hid, hf]
  cases he : getStr c "email" <;> simp [hfne, alistSet]

theorem convertClientToUser_no_email (protocol : String) (c : JObj) :
    alistGet (convertClientToUser protocol c) "email" = none := by
  unfold convertClientToUser
  cases h1 : getStr c "id" <;> cases h2 : getStr c "email" <;>
    cases h3 : getStr c "flow" <;>
    (simp only []; (try split_ifs) <;> simp [alistGet_set_ne, alistGet_nil])

theorem convertClientToUser_vmess_no_name (c : JObj) :
    alistGet (convertClientToUser "vmess" c) "name" = none := by
  unfold convertClientToUser
  cases h1 : getStr c "id" <;> cases h2 : getStr c "email" <;>
    cases h3 : getStr c "flow" <;>
    (simp only []; (try split_ifs) <;> simp_all [alistGet_set_ne, alistGet_nil])

theorem convertXrayInboundToSingBox_vless_users (ib : XrayInboundConfig)
    (s c : JObj) (hp : ib.protocol = "vless")
    (hs : ib.settings = some (JVal.jobj s))
    (hc : getArr s "clients" = some [JVal.jobj c]) :
    ∃ sb, convertXrayInboundToSingBox ib = some sb ∧
      sb.users = some (JVal.jarr [JVal.jobj (convertClientToUser "vless" c)]) := by
  unfold convertXrayInboundToSingBox
  rw [hp, hs]
  rw [if_neg (by decide)]
  simp only [Option.bind, JVal.asObj, hc, convertClientsToUsers,
    List.length, List.map]
  refine ⟨_, rfl, ?_⟩
  repeat' split
  all_goals first | rfl | (exfalso; omega)

/-- C3: translating a VLESS inbound from the xray model to the sing-box model
renames each client's email field to name (and id to uuid, with flow
preserved) with no email key present in the output user entry; translating a
VMESS inbound in the same direction drops the email field entirely from each
user entry. -/
theorem c3_client_identity_translation :
    (∀ (c : JObj) (uuid e f : String),
        getStr c "id" = some uuid → getStr c "email" = some e → e ≠ "" →
        getStr c "flow" = some f → f ≠ "" →
        convertClientToUser "vless" c =
          [("uuid", JVal.jstr uuid), ("name", JVal.jstr e),
           ("flow", JVal.jstr f)])
    ∧ (∀ (protocol : String) (c : JObj),
        alistGet (convertClientToUser protocol c) "email" = none)
    ∧ (∀ (c : JObj) (uuid f : String),
        getStr c "id" = some uuid → getStr c "flow" = some f → f ≠ "" →
        convertClientToUser "vmess" c =
          [("uuid", JVal.jstr uuid), ("flow", JVal.jstr f)])
    ∧ (∀ (c : JObj),
        alistGet (convertClientToUser "vmess" c) "name" = none)
    ∧ (∀ (ib : XrayInboundConfig) (s c : JObj),
        ib.protocol = "vless" → ib.settings = some (JVal.jobj s) →
        getArr s "clients" = some [JVal.jobj c] →
        ∃ sb, convertXrayInboundToSingBox ib = some sb ∧
          sb.users = some (JVal.jarr [JVal.jobj (convertClientToUser "vless" c)])) :=
  ⟨convertClientToUser_vless_shape, convertClientToUser_no_email,
   convertClientToUser_vmess_shape, convertClientToUser_vmess_no_name,
   convertXrayInboundToSingBox_vless_users⟩

/-- Witness for C3 at the concrete client of end-to-end scenario A. -/
theorem c3_client_identity_translation_witness :
    convertClientToUser "vless"
        [("id", JVal.jstr "04b2592e-a720-4c38-a092-1c4c2f128a9a"),
         ("email", JVal.jstr "kpichugin@icloud.com"),
         ("flow", JVal.jstr "xtls-rprx-vision")] =
      [("uuid", JVal.jstr "04b2592e-a720-4c38-a092-1c4c2f128a9a"),
       ("name", JVal.jstr "kpichugin@icloud.com"),
       ("flow", JVal.jstr "xtls-rprx-vision")] ∧
    alistGet (convertClientToUser "vmess"
        [("id", JVal.jstr "04b2592e-a720-4c38-a092-1c4c2f128a9a"),
         ("email", JVal.jstr "kpichugin@icloud.com")]) "email" = none ∧
    (convertXrayInboundToSingBox
        { listen := none, port := 443, protocol := "vless",
          settings := some (JVal.jobj [("clients", JVal.jarr
            [JVal.jobj [("id", JVal.jstr "04b2592e-a720-4c38-a092-1c4c2f128a9a"),
                        ("email", JVal.jstr "kpichugin@icloud.com"),
                        ("flow", JVal.jstr "xtls-rprx-vision")]])]),
          streamSettings := none, tag := "inbound-443",
          sniffing := none }).map SingBoxInboundConfig.users =
      some (some (JVal.jarr [JVal.jobj
        [("uuid", JVal.jstr "04b2592e-a720-4c38-a092-1c4c2f128a9a"),
         ("name", JVal.jstr "kpichugin@icloud.com"),
         ("flow", JVal.jstr "xtls-rprx-vision")]])) := by
  refine ⟨?_, ?_, ?_⟩
  · exact c3_client_identity_translation.1 _ _ _ _ rfl rfl (by decide) rfl
      (by decide)
  · exact c3_client_identity_translation.2.1 "vmess" _
  · obtain ⟨sb, h1, h2⟩ := c3_client_identity_translation.2.2.2.2
      { listen := none, port := 443, protocol := "vless",
        settings := some (JVal.jobj [("clients", JVal.jarr
          [JVal.jobj [("id", JVal.jstr "04b2592e-a720-4c38-a092-1c4c2f128a9a"),
                      ("email", JVal.jstr "kpichugin@icloud.com"),
                      ("flow", JVal.jstr "xtls-rprx-vision")]])]),
        streamSettings := none, tag := "inbound-443",
        sniffing := none }
      [("clients", JVal.jarr
        [JVal.jobj [("id", JVal.jstr "04b2592e-a720-4c38-a092-1c4c2f128a9a"),
                    ("email", JVal.jstr "kpichugin@icloud.com"),
                    ("flow", JVal.jstr "xtls-rprx-vision")]])]
      [("id", JVal.jstr "04b2592e-a720-4c38-a092-1c4c2f128a9a"),
       ("email", JVal.jstr "kpichugin@icloud.com"),
       ("flow", JVal.jstr "xtls-rprx-vision")] rfl rfl rfl
    rw [h1, Option.map_some', h2]
    rfl

/-! ## Reality stream translation facts. -/

theorem convertRealitySettings_dest (rs : JObj) (d pk : String)
    (sids : List String) (hd : getStr rs "dest" = some d)
    (hpk : getStr rs "privateKey" = some pk)
    (hsid : getArr rs "shortIds" = some (sids.map JVal.jstr))
    (hne : sids ≠ []) :
    convertRealitySettings rs =
      JVal.jobj [("enabled", JVal.jbool true), ("server_name", JVal.jstr d),
        ("reality", JVal.jobj [("enabled", JVal.jbool true),
          ("handshake", JVal.jobj [("server", JVal.jstr d)]),
          ("private_key", JVal.jstr pk),
          ("short_id", JVal.jarr (sids.map JVal.jstr))])] := by
  unfold convertRealitySettings
  rw [hd, hpk, hsid]
  simp [strElems_map_jstr, alistSet, List.length_pos, hne]

theorem convertRealitySettings_serverNames (rs : JObj) (sn pk : String)
    (sids : List String) (rest : List JVal)
    (hd : getStr rs "dest" = none)
    (hsn : getArr rs "serverNames" = some (JVal.jstr sn :: rest))
    (hpk : getStr rs "privateKey" = some pk)
    (hsid : getArr rs "shortIds" = some (sids.map JVal.jstr))
    (hne : sids ≠ []) :
    convertRealitySettings rs =
      JVal.jobj [("enabled", JVal.jbool true), ("server_name", JVal.jstr sn),
        ("reality", JVal.jobj [("enabled", JVal.jbool true),
          ("handshake", JVal.jobj [("server", JVal.jstr sn)]),
          ("private_key", JVal.jstr pk),
          ("short_id", JVal.jarr (sids.map JVal.jstr))])] := by
  unfold convertRealitySettings
  rw [hd, hsn, hpk, hsid]
  simp [strElems_map_jstr, alistSet, List.length_pos, hne, JVal.asStr]

theorem convertStreamToTls_reality (stream rs : JObj)
    (hsec : getStr stream "security" = some "reality")
    (hrs : getObj stream "realitySettings" = some rs) :
    convertStreamToTls stream = some (convertRealitySettings rs) := by
  unfold convertStreamToTls
  rw [hsec, hrs]
  simp

/-- C4: translating an xray inbound whose stream security is reality
produces a TLS section with the enabled flag set, the server name at the TLS
level sourced from the dest field or from the first element of serverNames
when dest is absent, and a nested reality object with the enabled flag, a
synthesized handshake whose server is that same name, the private key copied
and the short ids copied through as an array of strings; the example input of
end-to-end scenario B yields exactly the stated TLS section. -/
theorem c4_reality_translation :
    (∀ (stream rs : JObj),
        getStr stream "security" = some "reality" →
        getObj stream "realitySettings" = some rs →
        convertStreamToTls stream = some (convertRealitySettings rs))
    ∧ (∀ (rs : JObj) (d pk : String) (sids : List String),
        getStr rs "dest" = some d →
        getStr rs "privateKey" = some pk →
        getArr rs "shortIds" = some (sids.map JVal.jstr) → sids ≠ [] →
        convertRealitySettings rs =
          JVal.jobj [("enabled", JVal.jbool true),
            ("server_name", JVal.jstr d),
            ("reality", JVal.jobj [("enabled", JVal.jbool true),
              ("handshake", JVal.jobj [("server", JVal.jstr d)]),
              ("private_key", JVal.jstr pk),
              ("short_id", JVal.jarr (sids.map JVal.jstr))])])
    ∧ (∀ (rs : JObj) (sn pk : String) (sids : List String) (rest : List JVal),
        getStr rs "dest" = none →
        getArr rs "serverNames" = some (JVal.jstr sn :: rest) →
        getStr rs "privateKey" = some pk →
        getArr rs "shortIds" = some (sids.map JVal.jstr) → sids ≠ [] →
        convertRealitySettings rs =
          JVal.jobj [("enabled", JVal.jbool true),
            ("server_name", JVal.jstr sn),
            ("reality", JVal.jobj [("enabled", JVal.jbool true),
              ("handshake", JVal.jobj [("server", JVal.jstr sn)]),
              ("private_key", JVal.jstr pk),
              ("short_id", JVal.jarr (sids.map JVal.jstr))])])
    ∧ convertRealitySettings
        [("dest", JVal.jstr "aws.amazon.com:443"),
         ("shortIds", JVal.jarr [JVal.jstr "837fc8948286", JVal.jstr "01"]),
         ("privateKey", JVal.jstr "EOx_0GUMZDiAedBMSUbhTSWn3tTQo1u")] =
      JVal.jobj [("enabled", JVal.jbool true),
        ("server_name", JVal.jstr "aws.amazon.com:443"),
        ("reality", JVal.jobj [("enabled", JVal.jbool true),
          ("handshake", JVal.jobj [("server", JVal.jstr "aws.amazon.com:443")]),
          ("private_key", JVal.jstr "EOx_0GUMZDiAedBMSUbhTSWn3tTQo1u"),
          ("short_id", JVal.jarr [JVal.jstr "837fc8948286", JVal.jstr "01"])])] :=
  ⟨convertStreamToTls_reality, convertRealitySettings_dest,
   convertRealitySettings_serverNames, rfl⟩

/-- Witness for C4 at the concrete stream settings of scenario B. -/
theorem c4_reality_translation_witness :
    convertStreamToTls
        [("network", JVal.jstr "tcp"), ("security", JVal.jstr "reality"),
         ("realitySettings", JVal.jobj
           [("dest", JVal.jstr "aws.amazon.com:443"),
            ("shortIds", JVal.jarr [JVal.jstr "837fc8948286", JVal.jstr "01"]),
            ("privateKey", JVal.jstr "EOx_0GUMZDiAedBMSUbhTSWn3tTQo1u")])] =
      some (JVal.jobj [("enabled", JVal.jbool true),
        ("server_name", JVal.jstr "aws.amazon.com:443"),
        ("reality", JVal.jobj [("enabled", JVal.jbool true),
          ("handshake", JVal.jobj [("server", JVal.jstr "aws.amazon.com:443")]),
          ("private_key", JVal.jstr "EOx_0GUMZDiAedBMSUbhTSWn3tTQo1u"),
          ("short_id", JVal.jarr [JVal.jstr "837fc8948286", JVal.jstr "01"])])]) := by
  rw [c4_reality_translation.1
    [("network", JVal.jstr "tcp"), ("security", JVal.jstr "reality"),
     ("realitySettings", JVal.jobj
       [("dest", JVal.jstr "aws.amazon.com:443"),
        ("shortIds", JVal.jarr [JVal.jstr "837fc8948286", JVal.jstr "01"]),
        ("privateKey", JVal.jstr "EOx_0GUMZDiAedBMSUbhTSWn3tTQo1u")])]
    [("dest", JVal.jstr "aws.amazon.com:443"),
     ("shortIds", JVal.jarr [JVal.jstr "837fc8948286", JVal.jstr "01"]),
     ("privateKey", JVal.jstr "EOx_0GUMZDiAedBMSUbhTSWn3tTQo1u")] rfl rfl,
    c4_reality_translation.2.2.2]

/-! ## Route-rule translation facts. -/

theorem getArr_set_ne (m : JObj) (k k' : String) (v : JVal) (h : k' ≠ k) :
    getArr (alistSet m k v) k' = getArr m k' := by
  simp [getArr, alistGet_set_ne _ _ _ _ h]

theorem getArr_del_ne (m : JObj) (k k' : String) (h : k' ≠ k) :
    getArr (alistDel m k) k' = getArr m k' := by
  simp [getArr, alistGet_del_ne _ _ _ h]

theorem convertRuleRenames_get (rm : JObj) (k : String)
    (h1 : k ≠ "type") (h2 : k ≠ "outboundTag") (h3 : k ≠ "outbound")
    (h4 : k ≠ "inboundTag") (h5 : k ≠ "inbound") :
    alistGet (convertRuleRenames rm) k = alistGet rm k := by
  unfold convertRuleRenames
  simp only []
  cases hA : getStr (alistDel rm "type") "outboundTag" with
  | none =>
    cases hB : getArr (alistDel rm "type") "inboundTag" with
    | none => simp [alistGet_del_ne _ _ _ h1]
    | some ts =>
      simp [alistGet_del_ne _ _ _ h1, alistGet_del_ne _ _ _ h4,
        alistGet_set_ne _ _ _ _ h5]
  | some t =>
    cases hB : getArr (alistDel (alistSet (alistDel rm "type") "outbound"
        (JVal.jstr t)) "outboundTag") "inboundTag" with
    | none =>
      simp [alistGet_del_ne _ _ _ h1, alistGet_del_ne _ _ _ h2,
        alistGet_set_ne _ _ _ _ h3]
    | some ts =>
      simp [alistGet_del_ne _ _ _ h1, alistGet_del_ne _ _ _ h2,
        alistGet_set_ne _ _ _ _ h3, alistGet_del_ne _ _ _ h4,
        alistGet_set_ne _ _ _ _ h5]

theorem extractGeoip_fst_ne_nil (ip : List JVal) (s : String)
    (hmem : JVal.jstr s ∈ ip)
    (hpre : "geoip:".data.isPrefixOf s.data = true) :
    (extractGeoip ip).1 ≠ [] := by
  induction ip with
  | nil => simp at hmem
  | cons x rest ih =>
    rcases List.mem_cons.mp hmem with rfl | hmem'
    · simp [extractGeoip, JVal.asStr, hpre]
    · cases x with
      | jstr t =>
        by_cases ht : "geoip:".data.isPrefixOf t.data = true
        · simp [extractGeoip, JVal.asStr, ht]
        · simpa [extractGeoip, JVal.asStr, ht] using ih hmem'
      | jnull => simpa [extractGeoip, JVal.asStr] using ih hmem'
      | jbool b => simpa [extractGeoip, JVal.asStr] using ih hmem'
      | jnum n => simpa [extractGeoip, JVal.asStr] using ih hmem'
      | jarr xs => simpa [extractGeoip, JVal.asStr] using ih hmem'
      | jobj o => simpa [extractGeoip, JVal.asStr] using ih hmem'

theorem convertRuleRenames_getArr (rm : JObj) (k : String)
    (h1 : k ≠ "type") (h2 : k ≠ "outboundTag") (h3 : k ≠ "outbound")
    (h4 : k ≠ "inboundTag") (h5 : k ≠ "inbound") :
    getArr (convertRuleRenames rm) k = getArr rm k := by
  simp [getArr, convertRuleRenames_get rm k h1 h2 h3 h4 h5]

theorem convertXrayRouteRule_dropped (rm : JObj) (ip : List JVal)
    (hip : getArr rm "ip" = some ip)
    (hg : (extractGeoip ip).1 ≠ []) :
    convertXrayRouteRule false (JVal.jobj rm) = none := by
  unfold convertXrayRouteRule
  simp only [JVal.asObj]
  have hip' : getArr (convertRuleRenames rm) "ip" = some ip := by
    rw [convertRuleRenames_getArr rm "ip" (by decide) (by decide) (by decide)
      (by decide) (by decide)]
    exact hip
  rw [hip']
  simp [List.length_pos, hg]

theorem convertXrayRouteRule_configured (rm : JObj) (ip : List JVal)
    (hip : getArr rm "ip" = some ip)
    (hg : (extractGeoip ip).1 ≠ []) :
    ∃ rm', convertXrayRouteRule true (JVal.jobj rm) = some (JVal.jobj rm') ∧
      alistGet rm' "geoip" =
        some (JVal.jarr ((extractGeoip ip).1.map JVal.jstr)) := by
  unfold convertXrayRouteRule
  simp only [JVal.asObj]
  have hip' : getArr (convertRuleRenames rm) "ip" = some ip := by
    rw [convertRuleRenames_getArr rm "ip" (by decide) (by decide) (by decide)
      (by decide) (by decide)]
    exact hip
  rw [hip']
  have hlen : (extractGeoip ip).1.length > 0 := List.length_pos.mpr hg
  have hgeoGet : ∀ (x : JObj),
      alistGet (alistDel (alistSet x "geoip"
        (JVal.jarr ((extractGeoip ip).1.map JVal.jstr))) "ip") "geoip" =
      some (JVal.jarr ((extractGeoip ip).1.map JVal.jstr)) := by
    intro x
    rw [alistGet_del_ne _ _ _ (by decide), alistGet_set_self]
  simp only []
  rw [if_neg (by simp), if_pos hlen]
  by_cases hreg : (extractGeoip ip).2.length > 0
  · rw [if_pos hreg]
    simp only []
    rw [alistGet_set_ne _ _ _ _ (by decide), hgeoGet]
    simp only []
    rw [if_neg (by simp)]
    exact ⟨_, rfl, by rw [alistGet_set_ne _ _ _ _ (by decide), hgeoGet]⟩
  · rw [if_neg hreg, if_neg (by simpa using hg)]
    simp only []
    rw [hgeoGet]
    simp only []
    rw [if_neg (by simp)]
    exact ⟨_, rfl, hgeoGet _⟩

theorem convertXrayRouteToSingBox_rules (routeMap : JObj) (rules : List JVal)
    (hr : getArr routeMap "rules" = some rules) :
    convertXrayRouteToSingBox (JVal.jobj routeMap) =
      JVal.jobj (alistSet
        (alistDel (alistDel routeMap "domainStrategy") "domain_strategy")
        "rules" (JVal.jarr (rules.filterMap (convertXrayRouteRule
          (((alistGet routeMap "geoip").bind JVal.asObj).isSome))))) := by
  have h1 : (alistGet (alistDel (alistDel routeMap "domainStrategy")
      "domain_strategy") "geoip").bind JVal.asObj =
      (alistGet routeMap "geoip").bind JVal.asObj := by
    rw [alistGet_del_ne _ _ _ (by decide), alistGet_del_ne _ _ _ (by decide)]
  have h2 : getArr (alistDel (alistDel routeMap "domainStrategy")
      "domain_strategy") "rules" = some rules := by
    rw [getArr_del_ne _ _ _ (by decide), getArr_del_ne _ _ _ (by decide)]
    exact hr
  unfold convertXrayRouteToSingBox
  rw [show (JVal.jobj routeMap).asObj = some routeMap from rfl]
  simp only []
  rw [h1, h2]

/-- C6: when translating an xray route section to the sing-box model, a route
rule whose ip list contains a geoip-prefixed literal is rewritten with the
extracted values in a geoip array field if a geoip database object is
configured in the target route, and the entire rule is dropped from the
translated rule list if not; in particular the rule of end-to-end scenario C
with no geoip database configured yields no output rule. -/
theorem c6_geoip_rule_translation :
    (∀ (routeMap : JObj) (rules : List JVal),
        getArr routeMap "rules" = some rules →
        convertXrayRouteToSingBox (JVal.jobj routeMap) =
          JVal.jobj (alistSet
            (alistDel (alistDel routeMap "domainStrategy") "domain_strategy")
            "rules" (JVal.jarr (rules.filterMap (convertXrayRouteRule
              (((alistGet routeMap "geoip").bind JVal.asObj).isSome))))))
    ∧ (∀ (rm : JObj) (ip : List JVal) (s : String),
        getArr rm "ip" = some ip → JVal.jstr s ∈ ip →
        "geoip:".data.isPrefixOf s.data = true →
        convertXrayRouteRule false (JVal.jobj rm) = none)
    ∧ (∀ (rm : JObj) (ip : List JVal) (s : String),
        getArr rm "ip" = some ip → JVal.jstr s ∈ ip →
        "geoip:".data.isPrefixOf s.data = true →
        ∃ rm', convertXrayRouteRule true (JVal.jobj rm) = some (JVal.jobj rm') ∧
          alistGet rm' "geoip" =
            some (JVal.jarr ((extractGeoip ip).1.map JVal.jstr)))
    ∧ convertXrayRouteToSingBox (JVal.jobj
        [("rules", JVal.jarr [JVal.jobj
          [("type", JVal.jstr "field"),
           ("outboundTag", JVal.jstr "direct"),
           ("ip", JVal.jarr [JVal.jstr "geoip:private"])]])]) =
      JVal.jobj [("rules", JVal.jarr [])] := by
  refine ⟨convertXrayRouteToSingBox_rules, ?_, ?_, rfl⟩
  · intro rm ip s hip hmem hpre
    exact convertXrayRouteRule_dropped rm ip hip
      (extractGeoip_fst_ne_nil ip s hmem hpre)
  · intro rm ip s hip hmem hpre
    exact convertXrayRouteRule_configured rm ip hip
      (extractGeoip_fst_ne_nil ip s hmem hpre)

/-- Witness for C6 at the concrete rule of scenario C and at a configured
route. -/
theorem c6_geoip_rule_translation_witness :
    convertXrayRouteRule false (JVal.jobj
      [("type", JVal.jstr "field"), ("outboundTag", JVal.jstr "direct"),
       ("ip", JVal.jarr [JVal.jstr "geoip:private"])]) = none ∧
    convertXrayRouteToSingBox (JVal.jobj
      [("rules", JVal.jarr [JVal.jobj
        [("type", JVal.jstr "field"),
         ("outboundTag", JVal.jstr "direct"),
         ("ip", JVal.jarr [JVal.jstr "geoip:private"])]])]) =
      JVal.jobj [("rules", JVal.jarr [])] ∧
    (convertXrayRouteRule true (JVal.jobj
      [("type", JVal.jstr "field"), ("outboundTag", JVal.jstr "direct"),
       ("ip", JVal.jarr [JVal.jstr "geoip:private"])])).bind
        (fun r => r.asObj.bind (fun rm' => alistGet rm' "geoip")) =
      some (JVal.jarr [JVal.jstr "private"]) := by
  refine ⟨?_, ?_, ?_⟩
  · exact c6_geoip_rule_translation.2.1
      [("type", JVal.jstr "field"), ("outboundTag", JVal.jstr "direct"),
       ("ip", JVal.jarr [JVal.jstr "geoip:private"])]
      [JVal.jstr "geoip:private"] "geoip:private" rfl (by simp) rfl
  · exact c6_geoip_rule_translation.2.2.2
  · obtain ⟨rm', h1, h2⟩ := c6_geoip_rule_translation.2.2.1
      [("type", JVal.jstr "field"), ("outboundTag", JVal.jstr "direct"),
       ("ip", JVal.jarr [JVal.jstr "geoip:private"])]
      [JVal.jstr "geoip:private"] "geoip:private" rfl (by simp) rfl
    rw [h1]
    simpa [JVal.asObj, extractGeoip, JVal.asStr] using h2

/-! ## Round-trip facts for the two translation directions. -/

theorem getStr_set_ne (m : JObj) (k k' : String) (v : JVal) (h : k' ≠ k) :
    getStr (alistSet m k v) k' = getStr m k' := by
  simp [getStr, alistGet_set_ne _ _ _ _ h]

theorem getStr_set_str (m : JObj) (k s : String) :
    getStr (alistSet m k (JVal.jstr s)) k = some s := by
  simp [getStr, alistGet_set_self, JVal.asStr]

theorem getStr_nil (k : String) : getStr [] k = none := rfl

theorem vless_email_roundtrip (c : JObj) (e : String)
    (he : getStr c "email" = some e) (hene : e ≠ "") :
    getStr (convertUserToClient (convertClientToUser "vless" c)) "email" =
      some e := by
  have huser : getStr (convertClientToUser "vless" c) "name" = some e := by
    unfold convertClientToUser
    rw [he]
    simp only []
    rw [if_pos ⟨hene, trivial⟩]
    cases h1 : getStr c "id" <;> cases h3 : getStr c "flow" <;>
      simp [apply_ite (fun m => getStr m "name"), getStr_set_ne, getStr_set_str]
  generalize convertClientToUser "vless" c = user at huser
  unfold convertUserToClient
  rw [huser]
  simp only []
  rw [if_pos hene]
  cases h1 : getStr user "uuid" <;> cases h2 : getStr user "flow" <;>
    simp [getStr_set_ne, getStr_set_str]

theorem vmess_email_roundtrip_lost (c : JObj) :
    getStr (convertUserToClient (convertClientToUser "vmess" c)) "email" =
      none := by
  have hname := convertClientToUser_vmess_no_name c
  have hemail := convertClientToUser_no_email "vmess" c
  generalize convertClientToUser "vmess" c = user at hname hemail
  unfold convertUserToClient
  rw [show getStr user "name" = none from by simp [getStr, hname],
    show getStr user "email" = none from by simp [getStr, hemail]]
  cases h1 : getStr user "uuid" <;> cases h2 : getStr user "flow" <;>
    simp [getStr, alistGet_set_ne, alistGet_nil]

theorem convertXrayInboundToSingBox_vless_typ_users (ib : XrayInboundConfig)
    (s c : JObj) (hp : ib.protocol = "vless")
    (hs : ib.settings = some (JVal.jobj s))
    (hc : getArr s "clients" = some [JVal.jobj c]) :
    ∃ sb, convertXrayInboundToSingBox ib = some sb ∧ sb.typ = "vless" ∧
      sb.users = some (JVal.jarr [JVal.jobj (convertClientToUser "vless" c)]) := by
  unfold convertXrayInboundToSingBox
  rw [hp, hs, if_neg (by decide)]
  simp only [Option.bind, JVal.asObj, hc, convertClientsToUsers,
    List.length, List.map]
  refine ⟨_, rfl, ?_, ?_⟩ <;> (repeat' split) <;>
    first | rfl | (exfalso; omega)

theorem convertSingBoxInboundToXray_vless_clients (sb : SingBoxInboundConfig)
    (user : JObj) (htyp : sb.typ = "vless")
    (hu : sb.users = some (JVal.jarr [JVal.jobj user])) :
    (convertSingBoxInboundToXray sb).settings =
      some (JVal.jobj [("clients",
        JVal.jarr [JVal.jobj (convertUserToClient user)])]) := by
  unfold convertSingBoxInboundToXray
  rw [htyp, hu]
  simp [JVal.asObjArr, JVal.asArr, JVal.asObj, alistSet, List.mapM,
    List.mapM.loop]

theorem reality_roundtrip_shape (d pk : String) (sids : List String)
    (hne : sids ≠ []) :
    convertTlsToStream
      [("enabled", JVal.jbool true), ("server_name", JVal.jstr d),
       ("reality", JVal.jobj [("enabled", JVal.jbool true),
         ("handshake", JVal.jobj [("server", JVal.jstr d)]),
         ("private_key", JVal.jstr pk),
         ("short_id", JVal.jarr (sids.map JVal.jstr))])] [] =
      [("security", JVal.jstr "reality"),
       ("realitySettings", JVal.jobj
         [("dest", JVal.jstr d), ("serverNames", JVal.jarr [JVal.jstr d]),
          ("privateKey", JVal.jstr pk),
          ("shortIds", JVal.jarr (sids.map JVal.jstr))])] := by
  unfold convertTlsToStream
  simp [getObj, getStr, alistGet, List.find?, JVal.asObj, JVal.asStr, alistSet,
    strElems_map_jstr, List.length_pos, hne]

theorem reality_fields_roundtrip (rs : JObj) (d pk : String)
    (sids : List String) (hd : getStr rs "dest" = some d)
    (hpk : getStr rs "privateKey" = some pk)
    (hsid : getArr rs "shortIds" = some (sids.map JVal.jstr))
    (hne : sids ≠ []) :
    ∃ rs', getObj (convertTlsToStream
        ((convertRealitySettings rs).asObj.getD []) []) "realitySettings" =
          some rs' ∧
      getStr rs' "dest" = some d ∧
      getArr rs' "shortIds" = some (sids.map JVal.jstr) := by
  rw [convertRealitySettings_dest rs d pk sids hd hpk hsid hne]
  simp only [JVal.asObj, Option.getD]
  rw [reality_roundtrip_shape d pk sids hne]
  refine ⟨[("dest", JVal.jstr d), ("serverNames", JVal.jarr [JVal.jstr d]),
    ("privateKey", JVal.jstr pk),
    ("shortIds", JVal.jarr (sids.map JVal.jstr))], ?_, ?_, ?_⟩
  · simp [getObj, alistGet, List.find?, JVal.asObj]
  · simp [getStr, alistGet, List.find?, JVal.asStr]
  · simp [getArr, alistGet, List.find?, JVal.asArr]

theorem convertRuleRenames_type_none (rm : JObj)
    (hnd : (rm.map Prod.fst).Nodup) :
    alistGet (convertRuleRenames rm) "type" = none := by
  unfold convertRuleRenames
  simp only []
  cases hA : getStr (alistDel rm "type") "outboundTag" with
  | none =>
    cases hB : getArr (alistDel rm "type") "inboundTag" with
    | none => exact alistGet_del_self rm "type" hnd
    | some ts =>
      rw [alistGet_del_ne _ _ _ (by decide), alistGet_set_ne _ _ _ _ (by decide)]
      exact alistGet_del_self rm "type" hnd
  | some t =>
    cases hB : getArr (alistDel (alistSet (alistDel rm "type") "outbound"
        (JVal.jstr t)) "outboundTag") "inboundTag" with
    | none =>
      rw [alistGet_del_ne _ _ _ (by decide), alistGet_set_ne _ _ _ _ (by decide)]
      exact alistGet_del_self rm "type" hnd
    | some ts =>
      rw [alistGet_del_ne _ _ _ (by decide), alistGet_set_ne _ _ _ _ (by decide),
        alistGet_del_ne _ _ _ (by decide), alistGet_set_ne _ _ _ _ (by decide)]
      exact alistGet_del_self rm "type" hnd

theorem convertXrayRouteRule_type_none (hasG : Bool) (rm rm' : JObj)
    (hnd : (rm.map Prod.fst).Nodup)
    (h : convertXrayRouteRule hasG (JVal.jobj rm) = some (JVal.jobj rm')) :
    alistGet rm' "type" = none := by
  have hR := convertRuleRenames_type_none rm hnd
  unfold convertXrayRouteRule at h
  simp only [JVal.asObj] at h
  cases hip : getArr (convertRuleRenames rm) "ip" with
  | none =>
    rw [hip] at h
    simp only [] at h
    repeat' split at h
    all_goals try exact Option.noConfusion h
    all_goals simp only [Option.some.injEq, JVal.jobj.injEq] at h
    all_goals subst h
    all_goals simp [alistGet_set_ne, alistGet_del_ne, hR]
  | some ip =>
    rw [hip] at h
    simp only [] at h
    by_cases hc1 : (extractGeoip ip).1.length > 0 ∧ ¬ hasG = true
    · rw [if_pos hc1] at h
      exact Option.noConfusion h
    · rw [if_neg hc1] at h
      simp only [] at h
      repeat' split at h
      all_goals try exact Option.noConfusion h
      all_goals simp only [Option.some.injEq, JVal.jobj.injEq] at h
      all_goals subst h
      all_goals simp [alistGet_set_ne, alistGet_del_ne, hR]

/-- C5: the A-to-B-to-A round trip of the config translator is not the
identity in general, but specific fields survive: a VLESS client's email
survives through the name rename and back, both at the client level and
through the inbound converters; Reality short ids and the server name
survive through the TLS section and back; whereas VMESS client emails are
lost, the field marker of route rules is removed by the forward direction
and never restored by the reverse direction, whose route section is a plain
copy, and a geoip rule translated without a configured geoip database is
dropped entirely. -/
theorem c5_roundtrip_losses_and_survivors :
    (∀ (c : JObj) (e : String),
        getStr c "email" = some e → e ≠ "" →
        getStr (convertUserToClient (convertClientToUser "vless" c)) "email" =
          some e)
    ∧ (∀ (ib : XrayInboundConfig) (s c : JObj),
        ib.protocol = "vless" → ib.settings = some (JVal.jobj s) →
        getArr s "clients" = some [JVal.jobj c] →
        ∃ sb, convertXrayInboundToSingBox ib = some sb ∧
          (convertSingBoxInboundToXray sb).settings =
            some (JVal.jobj [("clients", JVal.jarr
              [JVal.jobj (convertUserToClient (convertClientToUser "vless" c))])]))
    ∧ (∀ (rs : JObj) (d pk : String) (sids : List String),
        getStr rs "dest" = some d →
        getStr rs "privateKey" = some pk →
        getArr rs "shortIds" = some (sids.map JVal.jstr) → sids ≠ [] →
        ∃ rs', getObj (convertTlsToStream
            ((convertRealitySettings rs).asObj.getD []) []) "realitySettings" =
              some rs' ∧
          getStr rs' "dest" = some d ∧
          getArr rs' "shortIds" = some (sids.map JVal.jstr))
    ∧ (∀ (c : JObj),
        getStr (convertUserToClient (convertClientToUser "vmess" c)) "email" =
          none)
    ∧ ((∀ (hasG : Bool) (rm rm' : JObj),
          (rm.map Prod.fst).Nodup →
          convertXrayRouteRule hasG (JVal.jobj rm) = some (JVal.jobj rm') →
          alistGet rm' "type" = none)
       ∧ (∀ (cfg : SingBoxConfig),
          (ConvertSingBoxToXray cfg).routerConfig = cfg.route))
    ∧ (∀ (rm : JObj) (ip : List JVal) (s : String),
        getArr rm "ip" = some ip → JVal.jstr s ∈ ip →
        "geoip:".data.isPrefixOf s.data = true →
        convertXrayRouteRule false (JVal.jobj rm) = none) := by
  refine ⟨vless_email_roundtrip, ?_, reality_fields_roundtrip,
    vmess_email_roundtrip_lost,
    ⟨fun hasG rm rm' hnd h => convertXrayRouteRule_type_none hasG rm rm' hnd h,
     fun cfg => rfl⟩, ?_⟩
  · intro ib s c h1 h2 h3
    obtain ⟨sb, heq, htyp, husers⟩ :=
      convertXrayInboundToSingBox_vless_typ_users ib s c h1 h2 h3
    exact ⟨sb, heq, convertSingBoxInboundToXray_vless_clients sb _ htyp husers⟩
  · intro rm ip s hip hm hp
    exact convertXrayRouteRule_dropped rm ip hip
      (extractGeoip_fst_ne_nil ip s hm hp)

/-- Witness for C5 at concrete clients, Reality settings and route rules. -/
theorem c5_roundtrip_losses_and_survivors_witness :
    getStr (convertUserToClient (convertClientToUser "vless"
        [("email", JVal.jstr "alice@example.com")])) "email" =
      some "alice@example.com" ∧
    (convertXrayInboundToSingBox
        { listen := none, port := 8443, protocol := "vless",
          settings := some (JVal.jobj [("clients", JVal.jarr
            [JVal.jobj [("id", JVal.jstr "u1"),
                        ("email", JVal.jstr "alice@example.com")]])]),
          streamSettings := none, tag := "t1", sniffing := none }).map
        (fun sb => (convertSingBoxInboundToXray sb).settings) =
      some (some (JVal.jobj [("clients", JVal.jarr
        [JVal.jobj [("id", JVal.jstr "u1"),
                    ("email", JVal.jstr "alice@example.com")]])])) ∧
    ((getObj (convertTlsToStream
        ((convertRealitySettings
          [("dest", JVal.jstr "aws.amazon.com:443"),
           ("shortIds", JVal.jarr [JVal.jstr "837fc8948286", JVal.jstr "01"]),
           ("privateKey", JVal.jstr "EOx_0GUMZDiAedBMSUbhTSWn3tTQo1u")]).asObj.getD
          []) []) "realitySettings").bind
        (fun rs' => getStr rs' "dest") = some "aws.amazon.com:443" ∧
     (getObj (convertTlsToStream
        ((convertRealitySettings
          [("dest", JVal.jstr "aws.amazon.com:443"),
           ("shortIds", JVal.jarr [JVal.jstr "837fc8948286", JVal.jstr "01"]),
           ("privateKey", JVal.jstr "EOx_0GUMZDiAedBMSUbhTSWn3tTQo1u")]).asObj.getD
          []) []) "realitySettings").bind
        (fun rs' => getArr rs' "shortIds") =
      some [JVal.jstr "837fc8948286", JVal.jstr "01"]) ∧
    getStr (convertUserToClient (convertClientToUser "vmess"
        [("id", JVal.jstr "u1"),
         ("email", JVal.jstr "alice@example.com")])) "email" = none ∧
    alistGet [("outbound", JVal.jstr "proxy")] "type" = none ∧
    (ConvertSingBoxToXray
        { log := none, dns := none, inbounds := [], outbounds := none,
          route := some (JVal.jobj []) }).routerConfig = some (JVal.jobj []) ∧
    convertXrayRouteRule false (JVal.jobj
      [("type", JVal.jstr "field"), ("outboundTag", JVal.jstr "direct"),
       ("ip", JVal.jarr [JVal.jstr "geoip:private"])]) = none := by
  refine ⟨?_, ?_, ⟨?_, ?_⟩, ?_, ?_, ?_, ?_⟩
  · exact c5_roundtrip_losses_and_survivors.1 _ "alice@example.com" rfl
      (by decide)
  · obtain ⟨sb, heq, hsettings⟩ := c5_roundtrip_losses_and_survivors.2.1
      { listen := none, port := 8443, protocol := "vless",
        settings := some (JVal.jobj [("clients", JVal.jarr
          [JVal.jobj [("id", JVal.jstr "u1"),
                      ("email", JVal.jstr "alice@example.com")]])]),
        streamSettings := none, tag := "t1", sniffing := none }
      [("clients", JVal.jarr
        [JVal.jobj [("id", JVal.jstr "u1"),
                    ("email", JVal.jstr "alice@example.com")]])]
      [("id", JVal.jstr "u1"), ("email", JVal.jstr "alice@example.com")]
      rfl rfl rfl
    rw [heq, Option.map_some', hsettings]
    rfl
  · obtain ⟨rs', h1, h2, h3⟩ := c5_roundtrip_losses_and_survivors.2.2.1
      [("dest", JVal.jstr "aws.amazon.com:443"),
       ("shortIds", JVal.jarr [JVal.jstr "837fc8948286", JVal.jstr "01"]),
       ("privateKey", JVal.jstr "EOx_0GUMZDiAedBMSUbhTSWn3tTQo1u")]
      "aws.amazon.com:443" "EOx_0GUMZDiAedBMSUbhTSWn3tTQo1u"
      ["837fc8948286", "01"] rfl rfl rfl (by decide)
    rw [h1, Option.some_bind, h2]
  · obtain ⟨rs', h1, h2, h3⟩ := c5_roundtrip_losses_and_survivors.2.2.1
      [("dest", JVal.jstr "aws.amazon.com:443"),
       ("shortIds", JVal.jarr [JVal.jstr "837fc8948286", JVal.jstr "01"]),
       ("privateKey", JVal.jstr "EOx_0GUMZDiAedBMSUbhTSWn3tTQo1u")]
      "aws.amazon.com:443" "EOx_0GUMZDiAedBMSUbhTSWn3tTQo1u"
      ["837fc8948286", "01"] rfl rfl rfl (by decide)
    rw [h1, Option.some_bind, h3]
    rfl
  · exact c5_roundtrip_losses_and_survivors.2.2.2.1 _
  · exact c5_roundtrip_losses_and_survivors.2.2.2.2.1.1 true
      [("type", JVal.jstr "field"), ("outboundTag", JVal.jstr "proxy")]
      [("outbound", JVal.jstr "proxy")] (by decide) rfl
  · exact c5_roundtrip_losses_and_survivors.2.2.2.2.1.2
      { log := none, dns := none, inbounds := [], outbounds := none,
        route := some (JVal.jobj []) }
  · exact c5_roundtrip_losses_and_survivors.2.2.2.2.2
      [("type", JVal.jstr "field"), ("outboundTag", JVal.jstr "direct"),
       ("ip", JVal.jarr [JVal.jstr "geoip:private"])]
      [JVal.jstr "geoip:private"] "geoip:private" rfl (by simp) rfl

/-! ## Template validation (SettingService.EnsureXrayTemplateConfigValid and
EnsureSingBoxTemplateConfigValid, web/service/setting.go).
The two functions share one control flow over the stored setting value: a
missing row is initialized from the embedded default; a value whose trimmed
form is empty or the placeholder is reset to the default; a value that does
not unmarshal into the target core's schema is reset to the default; an
otherwise valid value is kept, after a core-specific sanitation pass in the
sing-box variant.  The schema check and the sanitation pass are the two
core-specific pieces and enter the model as function parameters; database
reads and writes are modelled as succeeding, under which every branch of the
source returns a nil error. -/

/-- The whitespace trimming applied to the stored value before the checks,
as the standard trim of leading and trailing whitespace does. -/
def trimSpace (s : String) : String :=
  String.mk
    (((s.data.dropWhile Char.isWhitespace).reverse.dropWhile
      Char.isWhitespace).reverse)

/-- The value persisted in the template setting after the validation step. -/
def ensureTemplateConfigValid (parseOk : String → Bool)
    (sanitize : String → String) (defaultTpl : String)
    (stored : Option String) : String :=
  match stored with
  | none => defaultTpl
  | some v =>
    let value := trimSpace v
    if value = "" ∨ value = "\x7b\x7d" then defaultTpl
    else if ¬ parseOk value then defaultTpl
    else sanitize v

/-- C7: for every stored per-core template setting whose value is the empty
string, the placeholder braces after whitespace trimming, or a string the
target core's schema check rejects, the template-validation step replaces
the persisted setting with the embedded default template and returns
without error, so a subsequent read of the setting returns the default
template; this holds for both cores, whose validation differs only in the
schema check and in the sanitation applied to already-valid values. -/
theorem c7_template_self_heal :
    ∀ (parseOk : String → Bool) (sanitize : String → String)
      (defaultTpl : String) (v : String),
      (trimSpace v = "" ∨ trimSpace v = "\x7b\x7d" ∨
        parseOk (trimSpace v) = false) →
      ensureTemplateConfigValid parseOk sanitize defaultTpl (some v) =
        defaultTpl := by
  intro parseOk sanitize defaultTpl v h
  unfold ensureTemplateConfigValid
  rcases h with h | h | h
  · simp [h]
  · simp [h]
  · by_cases he : trimSpace v = "" ∨ trimSpace v = "\x7b\x7d"
    · simp [he]
    · simp [he, h]

/-- Witness for C7 at an empty value, a placeholder value and a value the
schema check rejects. -/
theorem c7_template_self_heal_witness :
    ensureTemplateConfigValid (fun _ => true) (fun v => v) "DEFAULT"
        (some "   ") = "DEFAULT" ∧
    ensureTemplateConfigValid (fun _ => true) (fun v => v) "DEFAULT"
        (some " \x7b\x7d ") = "DEFAULT" ∧
    ensureTemplateConfigValid (fun _ => false) (fun v => v) "DEFAULT"
        (some "not a config") = "DEFAULT" := by
  refine ⟨?_, ?_, ?_⟩
  · exact c7_template_self_heal _ _ _ _ (Or.inl (by decide))
  · exact c7_template_self_heal _ _ _ _ (Or.inr (Or.inl (by decide)))
  · exact c7_template_self_heal _ _ _ _ (Or.inr (Or.inr rfl))

/-! ## The sing-box process supervisor (singbox/config.go process type).
The state captures what the supervisor observes of its child process: a
command with a started process exists, and whether that process has
reported an exit status; IsRunning is true exactly when a process exists
without an exit status.  The environment carries the outcome of each
fallible interaction with the operating system.  Both operations return the
error value of the call together with the state afterwards; an error value
with an unchanged state also records that no process was signalled, none
spawned and no config file written. -/

/-- Observable state of the supervised sing-box process. -/
structure ProcState where
  hasProcess : Bool
  exited : Bool
  configWritten : Bool
  spawned : Bool
  signalled : Bool
deriving Repr, DecidableEq

/-- The IsRunning check: a process exists and has no exit status yet. -/
def procIsRunning (p : ProcState) : Bool := p.hasProcess && !p.exited

/-- Outcomes of the operating-system interactions of Start. -/
structure StartEnv where
  writeOk : Bool
  binaryFound : Bool
  checkOk : Bool

/-- The Start operation: an already-running process is refused before
anything is written or launched; then the config file is written, the
binary located, the config validated through the check subcommand, and
only then the process launched. -/
def procStart (env : StartEnv) (p : ProcState) : Option String × ProcState :=
  if procIsRunning p then (some "sing-box is already running", p)
  else if ¬ env.writeOk then (some "failed to write configuration file", p)
  else
    let p := { p with configWritten := true }
    if ¬ env.binaryFound then (some "sing-box binary not found", p)
    else if ¬ env.checkOk then (some "sing-box config validation failed", p)
    else (none, { p with hasProcess := true, exited := false, spawned := true })

/-- Outcomes of the operating-system interactions of Stop. -/
structure StopEnv where
  signalOk : Bool
  exitsWithinTimeout : Bool
  killOk : Bool
  exitsAfterKill : Bool

/-- The Stop operation: a process that is not running is refused before any
signal is sent; otherwise a termination signal is sent, the process is
awaited with a timeout, force-killed on expiry and awaited once more. -/
def procStop (env : StopEnv) (p : ProcState) : Option String × ProcState :=
  if ¬ procIsRunning p then (some "sing-box is not running", p)
  else
    let p := { p with signalled := true }
    if ¬ env.signalOk then (some "failed to signal sing-box", p)
    else if env.exitsWithinTimeout then (none, { p with exited := true })
    else if ¬ env.killOk then (some "failed to kill sing-box process", p)
    else if env.exitsAfterKill then (none, { p with exited := true })
    else (some "sing-box process didn't exit after kill", p)

/-- C8: at the process-supervisor level, calling Stop when the process is
not running returns an error without signalling any process (and, being a
total function of the state, without any abnormal termination), and calling
Start when the process is already running returns an error without spawning
a second process and without rewriting the config file: in both refusal
cases the state is returned unchanged. -/
theorem c8_stop_start_refusals :
    (∀ (env : StopEnv) (p : ProcState), procIsRunning p = false →
        procStop env p = (some "sing-box is not running", p))
    ∧ (∀ (env : StartEnv) (p : ProcState), procIsRunning p = true →
        procStart env p = (some "sing-box is already running", p)) := by
  constructor
  · intro env p h
    unfold procStop
    simp [h]
  · intro env p h
    unfold procStart
    simp [h]

/-- Witness for C8 at a stopped and at a running process state. -/
theorem c8_stop_start_refusals_witness :
    procStop
      { signalOk := true, exitsWithinTimeout := true, killOk := true,
        exitsAfterKill := true }
      { hasProcess := false, exited := false, configWritten := false,
        spawned := false, signalled := false } =
      (some "sing-box is not running",
       { hasProcess := false, exited := false, configWritten := false,
         spawned := false, signalled := false }) ∧
    procStart { writeOk := true, binaryFound := true, checkOk := true }
      { hasProcess := true, exited := false, configWritten := true,
        spawned := true, signalled := false } =
      (some "sing-box is already running",
       { hasProcess := true, exited := false, configWritten := true,
         spawned := true, signalled := false }) :=
  ⟨c8_stop_start_refusals.1 _ _ (by decide),
   c8_stop_start_refusals.2 _ _ (by decide)⟩

/-! ## Service-level stop (SingBoxService.StopSingBox, web/service/singbox.go)
and the crash-detection flag. -/

/-- Service-level state around the sing-box process: the package-level
process handle, the manually-stopped flag and a marker for the API
connection pool having been closed. -/
structure SBServiceState where
  proc : Option ProcState
  manuallyStopped : Bool
  apiConnectionsClosed : Bool
deriving Repr, DecidableEq

/-- The IsSingBoxRunning check: a process handle exists and is running. -/
def isSingBoxRunning (st : SBServiceState) : Bool :=
  match st.proc with
  | some p => procIsRunning p
  | none => false

/-- The StopSingBox operation: the manually-stopped flag is stored
unconditionally before the running check; a running process has its API
connections closed and is stopped through the process-level Stop, whose
error is returned; a process that is not running produces a nil error and
nothing else happens. -/
def stopSingBox (env : StopEnv) (st : SBServiceState) :
    Option String × SBServiceState :=
  let st := { st with manuallyStopped := true }
  if isSingBoxRunning st then
    let st := { st with apiConnectionsClosed := true }
    match st.proc with
    | some p =>
      let r := procStop env p
      (r.1, { st with proc := some r.2 })
    | none => (none, st)
  else (none, st)

/-- Modelled from the spec: the crash-detection query of the health-check
interface for the sing-box core, whose implementation is not among the
sources at hand (only the xray counterpart DidXrayCrash is declared in the
core-service adapter); per the specification a crash is observed exactly
when the process has exited without the manual-stop flag having been set
first. -/
def didSingBoxCrash (st : SBServiceState) : Bool :=
  !isSingBoxRunning st && !st.manuallyStopped

/-- C10: the service-level stop for sing-box is a no-op returning nil when
the process is not running — unlike the process-level Stop, which errors —
and it sets the manually-stopped flag unconditionally before checking, so a
crash-detection query made after any StopSingBox call observes a manual
stop rather than a crash. -/
theorem c10_service_stop_semantics :
    (∀ (env : StopEnv) (st : SBServiceState), isSingBoxRunning st = false →
        stopSingBox env st = (none, { st with manuallyStopped := true }))
    ∧ (∀ (env : StopEnv) (p : ProcState), procIsRunning p = false →
        (procStop env p).1 = some "sing-box is not running")
    ∧ (∀ (env : StopEnv) (st : SBServiceState),
        (stopSingBox env st).2.manuallyStopped = true)
    ∧ (∀ (env : StopEnv) (st : SBServiceState),
        didSingBoxCrash (stopSingBox env st).2 = false) := by
  refine ⟨?_, ?_, ?_, ?_⟩
  · intro env st h
    unfold stopSingBox
    have h' : isSingBoxRunning { st with manuallyStopped := true } = false := by
      simpa [isSingBoxRunning] using h
    simp [h']
  · intro env p h
    unfold procStop
    simp [h]
  · intro env st
    unfold stopSingBox
    simp only []
    split <;> (try split) <;> rfl
  · intro env st
    unfold didSingBoxCrash
    unfold stopSingBox
    simp only []
    split <;> (try split) <;> simp

/-- Witness for C10 at a concrete not-running service state. -/
theorem c10_service_stop_semantics_witness :
    stopSingBox
      { signalOk := true, exitsWithinTimeout := true, killOk := true,
        exitsAfterKill := true }
      { proc := none, manuallyStopped := false,
        apiConnectionsClosed := false } =
      (none, { proc := none, manuallyStopped := true,
               apiConnectionsClosed := false }) :=
  c10_service_stop_semantics.1 _ _ (by decide)

/-! ## The core-switch orchestrator
(SettingService.SwitchCoreWithConversion, web/service/setting.go).
The persisted settings the switch touches are the active-core-type string
and the two per-core template strings.  The stop-both-cores phase is
best-effort and changes no setting, and the two converters of the source
return a nil error unconditionally, so the fallible collaborators are the
config read, the marshalling, the two setting writes, the adapter
resolution and the restart, each of which enters the model as an outcome
flag; a failed write is taken to leave the setting unchanged.  The result
is the returned success together with the settings afterwards. -/

/-- The persisted settings involved in a core switch. -/
structure SettingsState where
  coreType : String
  xrayTpl : String
  sbTpl : String
deriving Repr, DecidableEq

/-- Outcomes of the fallible collaborators of the switch, and the text of
the marshalled translated template. -/
structure SwitchEnv where
  getConfigOk : Bool
  marshalOk : Bool
  saveOk : Bool
  setCoreOk : Bool
  getNewCoreOk : Bool
  restartOk : Bool
  translatedTpl : String

/-- The switch operation over the persisted settings: a no-op on an equal
type; an error on an unknown current type, a failed config read, an
unsupported direction, a failed marshal or a failed template write, all
before anything is persisted; then the translated template is persisted,
the active-core-type setting flipped, the new adapter resolved and
restarted, with an error returned from whichever of these fails. -/
def switchCoreWithConversion (env : SwitchEnv) (st : SettingsState)
    (newType : String) : Bool × SettingsState :=
  let oldType := st.coreType
  if oldType = newType then (true, st)
  else if oldType ≠ "xray" ∧ oldType ≠ "sing-box" then (false, st)
  else if ¬ env.getConfigOk then (false, st)
  else if (oldType = "xray" ∧ newType = "sing-box") ∨
      (oldType = "sing-box" ∧ newType = "xray") then
    if ¬ env.marshalOk then (false, st)
    else if ¬ env.saveOk then (false, st)
    else
      let st :=
        if newType = "xray" then { st with xrayTpl := env.translatedTpl }
        else { st with sbTpl := env.translatedTpl }
      if ¬ env.setCoreOk then (false, st)
      else
        let st := { st with coreType := newType }
        if ¬ env.getNewCoreOk then (false, st)
        else if ¬ env.restartOk then (false, st)
        else (true, st)
  else (false, st)

/-- C2 counterexample: with every step succeeding except the final restart
of the new core, the call returns an error, yet the active-core-type
setting has already been flipped to the new type and the new core's
template has been persisted — the system does not remain on the original
core type and the template settings are not unchanged. -/
theorem c2_switch_rollback_counterexample :
    switchCoreWithConversion
      { getConfigOk := true, marshalOk := true, saveOk := true,
        setCoreOk := true, getNewCoreOk := true, restartOk := false,
        translatedTpl := "TRANSLATED" }
      { coreType := "xray", xrayTpl := "XT", sbTpl := "ST" } "sing-box" =
      (false, { coreType := "sing-box", xrayTpl := "XT",
                sbTpl := "TRANSLATED" }) ∧
    (switchCoreWithConversion
      { getConfigOk := true, marshalOk := true, saveOk := true,
        setCoreOk := true, getNewCoreOk := true, restartOk := false,
        translatedTpl := "TRANSLATED" }
      { coreType := "xray", xrayTpl := "XT", sbTpl := "ST" }
      "sing-box").2.coreType ≠ "xray" := by
  constructor
  · rfl
  · decide

set_option maxHeartbeats 1600000 in
/-- C2 (amended): a failure when reading the current core's config, when
marshalling the translated config or when persisting the translated
template aborts the switch with an error and leaves the active-core-type
setting and both template settings unchanged from before the attempt; the
active-core-type setting is flipped only after the config read, the
translation marshalling and the template persistence have all succeeded;
but a failure when restarting the new core occurs after the flip, so the
call returns an error with the system already on the new core type and the
new core's template already persisted. -/
theorem c2_switch_rollback_amended :
    (∀ (env : SwitchEnv) (st : SettingsState) (newType : String),
        st.coreType ≠ newType →
        (env.getConfigOk = false ∨ env.marshalOk = false ∨
          env.saveOk = false) →
        switchCoreWithConversion env st newType = (false, st))
    ∧ (∀ (env : SwitchEnv) (st : SettingsState) (newType : String),
        (switchCoreWithConversion env st newType).2.coreType ≠ st.coreType →
        env.getConfigOk = true ∧ env.marshalOk = true ∧ env.saveOk = true ∧
          env.setCoreOk = true)
    ∧ (∀ (env : SwitchEnv) (st : SettingsState),
        env.getConfigOk = true → env.marshalOk = true → env.saveOk = true →
        env.setCoreOk = true → env.getNewCoreOk = true →
        env.restartOk = false → st.coreType = "xray" →
        switchCoreWithConversion env st "sing-box" =
          (false,
            { st with coreType := "sing-box", sbTpl := env.translatedTpl })) := by
  refine ⟨?_, ?_, ?_⟩
  · intro env st newType hne h
    unfold switchCoreWithConversion
    split_ifs <;> simp_all
  · intro env st newType h
    unfold switchCoreWithConversion at h
    by_cases h0 : st.coreType = newType
    · rw [if_pos h0] at h
      exact absurd rfl h
    rw [if_neg h0] at h
    by_cases h1 : st.coreType ≠ "xray" ∧ st.coreType ≠ "sing-box"
    · rw [if_pos h1] at h
      exact absurd rfl h
    rw [if_neg h1] at h
    by_cases h2 : ¬ env.getConfigOk = true
    · rw [if_pos h2] at h
      exact absurd rfl h
    rw [if_neg h2] at h
    by_cases h3 : (st.coreType = "xray" ∧ newType = "sing-box") ∨
        (st.coreType = "sing-box" ∧ newType = "xray")
    swap
    · rw [if_neg h3] at h
      exact absurd rfl h
    rw [if_pos h3] at h
    by_cases h4 : ¬ env.marshalOk = true
    · rw [if_pos h4] at h
      exact absurd rfl h
    rw [if_neg h4] at h
    by_cases h5 : ¬ env.saveOk = true
    · rw [if_pos h5] at h
      exact absurd rfl h
    rw [if_neg h5] at h
    simp only [] at h
    by_cases h6 : ¬ env.setCoreOk = true
    · rw [if_pos h6] at h
      exfalso
      apply h
      by_cases h7 : newType = "xray" <;> simp [h7]
    rw [if_neg h6] at h
    exact ⟨by simpa using h2, by simpa using h4, by simpa using h5,
      by simpa using h6⟩
  · intro env st h1 h2 h3 h4 h5 h6 h7
    unfold switchCoreWithConversion
    split_ifs <;> simp_all

/-- Witness for the amended C2 at a concrete failing persist and a concrete
failing restart. -/
theorem c2_switch_rollback_amended_witness :
    switchCoreWithConversion
      { getConfigOk := true, marshalOk := true, saveOk := false,
        setCoreOk := true, getNewCoreOk := true, restartOk := true,
        translatedTpl := "TRANSLATED" }
      { coreType := "xray", xrayTpl := "XT", sbTpl := "ST" } "sing-box" =
      (false, { coreType := "xray", xrayTpl := "XT", sbTpl := "ST" }) ∧
    ({ getConfigOk := true, marshalOk := true, saveOk := true,
       setCoreOk := true, getNewCoreOk := true, restartOk := true,
       translatedTpl := "TRANSLATED" } : SwitchEnv).getConfigOk = true ∧
    switchCoreWithConversion
      { getConfigOk := true, marshalOk := true, saveOk := true,
        setCoreOk := true, getNewCoreOk := true, restartOk := false,
        translatedTpl := "TRANSLATED" }
      { coreType := "xray", xrayTpl := "XT", sbTpl := "ST" } "sing-box" =
      (false, { coreType := "sing-box", xrayTpl := "XT",
                sbTpl := "TRANSLATED" }) := by
  refine ⟨?_, ?_, ?_⟩
  · exact c2_switch_rollback_amended.1 _ _ _ (by decide)
      (Or.inr (Or.inr rfl))
  · exact (c2_switch_rollback_amended.2.1
      { getConfigOk := true, marshalOk := true, saveOk := true,
        setCoreOk := true, getNewCoreOk := true, restartOk := true,
        translatedTpl := "TRANSLATED" }
      { coreType := "xray", xrayTpl := "XT", sbTpl := "ST" }
      "sing-box" (by decide)).1
  · exact c2_switch_rollback_amended.2.2
      { getConfigOk := true, marshalOk := true, saveOk := true,
        setCoreOk := true, getNewCoreOk := true, restartOk := false,
        translatedTpl := "TRANSLATED" }
      { coreType := "xray", xrayTpl := "XT", sbTpl := "ST" }
      rfl rfl rfl rfl rfl rfl rfl
